import Mathlib

/-! # toyz80: the opcode decode tables and the default memory images

A shallow embedding of `z80/opcodes.go` (the addressing modes, the opcode
descriptor and the five decode tables) and of the image and device set-up of
`_main` in `toyz80.go`, followed by the properties established about them.

Conventions of the embedding:
* Go slices are Lean lists; a nil slice is the empty list (no table element is
  written as an explicit empty `[]string{}`), and an index expression `t[i]` is
  `index t i`, which is `none` where Go panics with an index out of range.
* `uint64`, `uint16` and `byte` values are natural numbers; every constant of
  the source is within the range of its type.
-/

namespace Toyz80

/-- Go: `type mode int` with the constants `invalid = iota`, `immediate`, ... in
the order of the source; `invalid` is the zero value. -/
inductive mode where
  | invalid
  | immediate
  | immediateExtended
  | modifiedPageZero
  | relative
  | extended
  | indexed
  | register
  | implied
  | registerIndirect
  | bit
  | condition
  | displacement
  | indirect
deriving DecidableEq, Repr

/-- Go: `type opcode struct`; a field left out of a composite literal has the
zero value of its type, which is the default given here. -/
structure opcode where
  noCycles : Nat := 0
  mnemonic : List String := []
  noBytes : Nat := 0
  src : mode := mode.invalid
  srcR : List String := []
  dst : mode := mode.invalid
  dstR : List String := []
  multiByte : Bool := false
deriving DecidableEq, Repr

/-- Go: the length of a keyed slice literal is one more than its greatest key. -/
def keyedLen (kvs : List (Nat × opcode)) : Nat :=
  kvs.foldl (fun n kv => max n (kv.1 + 1)) 0

/-- Go: element `i` of a keyed slice literal is the value written for key `i`,
and the zero value where no key `i` is written. -/
def keyedAt (kvs : List (Nat × opcode)) (i : Nat) : opcode :=
  match kvs.find? (fun kv => kv.1 == i) with
  | some kv => kv.2
  | none => {}

/-- Go: the slice denoted by a keyed slice literal `[]opcode{k: v, ...}`. -/
def keyed (kvs : List (Nat × opcode)) : List opcode :=
  (List.range (keyedLen kvs)).map (keyedAt kvs)

/-- Go: the index expression `t[i]` on a slice; `none` is the run-time panic
"index out of range". -/
def index (t : List opcode) (i : Nat) : Option opcode :=
  t[i]?

/-- Go: `opcodesCB = []opcode{ key: value, ...}` (opcodes.go), a keyed slice literal. -/
def opcodesCB : List opcode := keyed [
  (0x27, { mnemonic := ["sla", ""], dst := .register, dstR := ["a"], noBytes := 2, noCycles := 8 }),
  (0x3f, { mnemonic := ["srl", ""], dst := .register, dstR := ["a"], noBytes := 2, noCycles := 8 })
]

/-- Go: `opcodesED = []opcode{ key: value, ...}` (opcodes.go), a keyed slice literal. -/
def opcodesED : List opcode := keyed [
  (0x44, { mnemonic := ["neg", ""], noBytes := 2, noCycles := 8 })
]

/-- Go: `opcodesDD = []opcode{ key: value, ...}` (opcodes.go), a keyed slice literal. -/
def opcodesDD : List opcode := keyed [
  (0x23, { mnemonic := ["inc"], dst := .register, dstR := ["ix"], noBytes := 2, noCycles := 10 }),
  (0x2b, { mnemonic := ["dec"], dst := .register, dstR := ["ix"], noBytes := 2, noCycles := 10 }),
  (0xe1, { mnemonic := ["pop"], dst := .register, dstR := ["ix"], noBytes := 2, noCycles := 14 }),
  (0xe5, { mnemonic := ["push"], dst := .register, dstR := ["ix"], noBytes := 2, noCycles := 15 })
]

/-- Go: `opcodesFD = []opcode{ key: value, ...}` (opcodes.go), a keyed slice literal. -/
def opcodesFD : List opcode := keyed [
  (0x23, { mnemonic := ["inc"], dst := .register, dstR := ["iy"], noBytes := 2, noCycles := 10 }),
  (0x2b, { mnemonic := ["dec"], dst := .register, dstR := ["iy"], noBytes := 2, noCycles := 10 }),
  (0xe1, { mnemonic := ["pop"], dst := .register, dstR := ["iy"], noBytes := 2, noCycles := 14 }),
  (0xe5, { mnemonic := ["push"], dst := .register, dstR := ["iy"], noBytes := 2, noCycles := 15 })
]

/-- Go: elements 0x00 to 0x0f of the positional slice literal `opcodes`; the comment
before each element is the comment of the source. -/
def opcodes_0x : List opcode := [
  -- 0x00 nop
  { mnemonic := ["nop", "nop"], noBytes := 1, noCycles := 4 },
  -- 0x01 ld bc,nn
  { mnemonic := ["ld", "lxi"], dst := .register, dstR := ["bc", "b"], src := .immediateExtended, srcR := ["", ""], noBytes := 3, noCycles := 10 },
  -- 0x02 ld (bc),a
  { mnemonic := ["ld", "stax"], dst := .registerIndirect, dstR := ["bc", "b"], src := .register, srcR := ["a", ""], noBytes := 1, noCycles := 7 },
  -- 0x03 inc bc
  { mnemonic := ["inc", "inx"], dst := .register, dstR := ["bc", "b"], noBytes := 1, noCycles := 6 },
  -- 0x04 inc b
  { mnemonic := ["inc", "inr"], dst := .register, dstR := ["b", "b"], noBytes := 1, noCycles := 4 },
  -- 0x05 dec b
  { mnemonic := ["dec", "dcr"], dst := .register, dstR := ["b", "b"], noBytes := 1, noCycles := 4 },
  -- 0x06 ld b,n
  { mnemonic := ["ld", "mvi"], dst := .register, dstR := ["b", "b"], src := .immediate, noBytes := 2, noCycles := 7 },
  -- 0x07 rlca
  { mnemonic := ["rlca", "rlc"], noBytes := 1, noCycles := 4 },
  -- 0x08 ex af,af'
  { mnemonic := ["ex"], dst := .register, dstR := ["af"], src := .register, srcR := ["af'"], noBytes := 1, noCycles := 4 },
  -- 0x09 add hl,bc
  { mnemonic := ["add", "dad"], dst := .register, dstR := ["hl", "b"], src := .register, srcR := ["bc", ""], noBytes := 1, noCycles := 11 },
  -- 0x0a ld a,(bc)
  { mnemonic := ["ld", "ldax"], dst := .register, dstR := ["a", ""], src := .registerIndirect, srcR := ["bc", "b"], noBytes := 1, noCycles := 7 },
  -- 0x0b dec bc
  { mnemonic := ["dec", "dcx"], dst := .register, dstR := ["bc", "d"], noBytes := 1, noCycles := 6 },
  -- 0x0c inc c
  { mnemonic := ["inc", "inr"], dst := .register, dstR := ["c", "c"], noBytes := 1, noCycles := 4 },
  -- 0x0d dec c
  { mnemonic := ["dec", "dcr"], dst := .register, dstR := ["c", "c"], noBytes := 1, noCycles := 4 },
  -- 0x0e ld c,n
  { mnemonic := ["ld", "mvi"], dst := .register, dstR := ["c", "c"], src := .immediate, noBytes := 2, noCycles := 7 },
  -- 0x0f rrca
  { mnemonic := ["rrca", "rrc"], noBytes := 1, noCycles := 4 }
]

/-- Go: elements 0x10 to 0x1f of the positional slice literal `opcodes`; the comment
before each element is the comment of the source. -/
def opcodes_1x : List opcode := [
  -- 0x10
  {},
  -- 0x11 ld de,nn
  { mnemonic := ["ld", "lxi"], dst := .register, dstR := ["de", "d"], src := .immediateExtended, noBytes := 3, noCycles := 10 },
  -- 0x12 ld (de),a
  { mnemonic := ["ld", "stax"], dst := .registerIndirect, dstR := ["de", "d"], src := .register, srcR := ["a", ""], noBytes := 1, noCycles := 7 },
  -- 0x13 inc de
  { mnemonic := ["inc", "inx"], dst := .register, dstR := ["de", "d"], noBytes := 1, noCycles := 6 },
  -- 0x14 inc d
  { mnemonic := ["inc", "inr"], dst := .register, dstR := ["d", "d"], noBytes := 1, noCycles := 4 },
  -- 0x15 dec d
  { mnemonic := ["dec", "dcr"], dst := .register, dstR := ["d", "d"], noBytes := 1, noCycles := 4 },
  -- 0x16 ld d,n
  { mnemonic := ["ld", "mvi"], dst := .register, dstR := ["d", "d"], src := .immediate, noBytes := 2, noCycles := 7 },
  -- 0x17
  {},
  -- 0x18
  { mnemonic := ["jr", ""], dst := .displacement, noBytes := 2, noCycles := 12 },
  -- 0x19 add hl,de
  { mnemonic := ["add", "dad"], dst := .register, dstR := ["hl", "d"], src := .registerIndirect, srcR := ["de", ""], noBytes := 1, noCycles := 11 },
  -- 0x1a ld a,(de)
  { mnemonic := ["ld", "ldax"], dst := .register, dstR := ["a", ""], src := .registerIndirect, srcR := ["de", "d"], noBytes := 1, noCycles := 7 },
  -- 0x1b dec de
  { mnemonic := ["dec", "dcx"], dst := .register, dstR := ["de", "d"], noBytes := 1, noCycles := 6 },
  -- 0x1c inc e
  { mnemonic := ["inc", "inr"], dst := .register, dstR := ["e", "e"], noBytes := 1, noCycles := 4 },
  -- 0x1d dec e
  { mnemonic := ["dec", "dcr"], dst := .register, dstR := ["e", "e"], noBytes := 1, noCycles := 4 },
  -- 0x1e ld e,n
  { mnemonic := ["ld", "mvi"], dst := .register, dstR := ["e", "e"], src := .immediate, noBytes := 2, noCycles := 7 },
  -- 0x1f
  { mnemonic := ["rra", "rar"], noBytes := 1, noCycles := 4 }
]

/-- Go: elements 0x20 to 0x2f of the positional slice literal `opcodes`; the comment
before each element is the comment of the source. -/
def opcodes_2x : List opcode := [
  -- 0x20
  {},
  -- 0x21 ld hl,nn
  { mnemonic := ["ld", "lxi"], dst := .register, dstR := ["hl", "h"], src := .immediateExtended, noBytes := 3, noCycles := 10 },
  -- 0x22 ld (nn),hl
  { mnemonic := ["ld", "shld"], dst := .extended, src := .register, srcR := ["hl", ""], noBytes := 3, noCycles := 16 },
  -- 0x23 inc de
  { mnemonic := ["inc", "inx"], dst := .register, dstR := ["hl", "h"], noBytes := 1, noCycles := 6 },
  -- 0x24 inc h
  { mnemonic := ["inc", "inr"], dst := .register, dstR := ["h", "h"], noBytes := 1, noCycles := 4 },
  -- 0x25 dec h
  { mnemonic := ["dec", "dcr"], dst := .register, dstR := ["h", "h"], noBytes := 1, noCycles := 4 },
  -- 0x26 ld h,n
  { mnemonic := ["ld", "mvi"], dst := .register, dstR := ["h", "h"], src := .immediate, noBytes := 2, noCycles := 7 },
  -- 0x27
  {},
  -- 0x28 // jr z,d
  { mnemonic := ["jr", ""], dst := .condition, dstR := ["z", ""], src := .displacement, noBytes := 2, noCycles := 12 },
  -- 0x29 add hl,hl
  { mnemonic := ["add", "dad"], dst := .register, dstR := ["hl", "h"], src := .register, srcR := ["hl", ""], noBytes := 1, noCycles := 11 },
  -- 0x2a ld hl,(nn)
  { mnemonic := ["ld", "lhld"], dst := .register, dstR := ["hl", ""], src := .extended, noBytes := 3, noCycles := 16 },
  -- 0x2b dec hl
  { mnemonic := ["dec", "dcx"], dst := .register, dstR := ["hl", "h"], noBytes := 1, noCycles := 6 },
  -- 0x2c inc l
  { mnemonic := ["inc", "inr"], dst := .register, dstR := ["l", "l"], noBytes := 1, noCycles := 4 },
  -- 0x2d dec l
  { mnemonic := ["dec", "dcr"], dst := .register, dstR := ["l", "l"], noBytes := 1, noCycles := 4 },
  -- 0x2e ld l,n
  { mnemonic := ["ld", "mvi"], dst := .register, dstR := ["l", "l"], src := .immediate, noBytes := 2, noCycles := 7 },
  -- 0x2f
  { mnemonic := ["cpl", "cma"], noBytes := 1, noCycles := 4 }
]

/-- Go: elements 0x30 to 0x3f of the positional slice literal `opcodes`; the comment
before each element is the comment of the source. -/
def opcodes_3x : List opcode := [
  -- 0x30
  {},
  -- 0x31 ld sp,nn
  { mnemonic := ["ld", "lxi"], dst := .register, dstR := ["sp", "sp"], src := .immediateExtended, noBytes := 3, noCycles := 10 },
  -- 0x32 ld (nn),a
  { mnemonic := ["ld", "sta"], dst := .immediateExtended, src := .register, srcR := ["a", ""], noBytes := 3, noCycles := 13 },
  -- 0x33 inc de
  { mnemonic := ["inc", "inx"], dst := .register, dstR := ["sp", "h"], noBytes := 1, noCycles := 6 },
  -- 0x34 inc (hl)
  { mnemonic := ["inc", "inr"], dst := .registerIndirect, dstR := ["hl", "m"], noBytes := 1, noCycles := 11 },
  -- 0x35 dec (hl)
  { mnemonic := ["dec", "dec"], dst := .registerIndirect, dstR := ["hl", "m"], noBytes := 1, noCycles := 11 },
  -- 0x36 ld (hl),n
  { mnemonic := ["ld", "mov"], dst := .registerIndirect, dstR := ["hl", "m"], src := .immediate, noBytes := 2, noCycles := 10 },
  -- 0x37
  { mnemonic := ["scf", "stc"], noBytes := 1, noCycles := 4 },
  -- 0x38
  {},
  -- 0x39 add hl,sp
  { mnemonic := ["add", "dad"], dst := .register, dstR := ["hl", "sp"], src := .registerIndirect, srcR := ["sp", ""], noBytes := 1, noCycles := 11 },
  -- 0x3a ld a,(nn)
  { mnemonic := ["ld", "lda"], dst := .register, dstR := ["a", ""], src := .extended, noBytes := 3, noCycles := 7 },
  -- 0x3b dec sp
  { mnemonic := ["dec", "dcx"], dst := .register, dstR := ["sp", "sp"], noBytes := 1, noCycles := 6 },
  -- 0x3c
  { mnemonic := ["inc", "inr"], dst := .register, dstR := ["a", "a"], noBytes := 1, noCycles := 4 },
  -- 0x3d dec a
  { mnemonic := ["dec", "dcr"], dst := .register, dstR := ["a", "a"], noBytes := 1, noCycles := 4 },
  -- 0x3e ld a,n
  { mnemonic := ["ld", "mvi"], dst := .register, dstR := ["a", "a"], src := .immediate, noBytes := 2, noCycles := 7 },
  -- 0x3f
  { mnemonic := ["ccf", "cmc"], noBytes := 1, noCycles := 4 }
]

/-- Go: elements 0x40 to 0x4f of the positional slice literal `opcodes`; the comment
before each element is the comment of the source. -/
def opcodes_4x : List opcode := [
  -- 0x40 ld b,b
  { mnemonic := ["ld", "mov"], dst := .register, dstR := ["b", "b"], src := .register, srcR := ["b", "b"], noBytes := 1, noCycles := 4 },
  -- 0x41 ld b,c
  { mnemonic := ["ld", "mov"], dst := .register, dstR := ["b", "b"], src := .register, srcR := ["c", "c"], noBytes := 1, noCycles := 4 },
  -- 0x42 ld b,d
  { mnemonic := ["ld", "mov"], dst := .register, dstR := ["b", "b"], src := .register, srcR := ["d", "d"], noBytes := 1, noCycles := 4 },
  -- 0x43 ld b,e
  { mnemonic := ["ld", "mov"], dst := .register, dstR := ["b", "b"], src := .register, srcR := ["e", "e"], noBytes := 1, noCycles := 4 },
  -- 0x44 ld b,h
  { mnemonic := ["ld", "mov"], dst := .register, dstR := ["b", "b"], src := .register, srcR := ["h", "h"], noBytes := 1, noCycles := 4 },
  -- 0x45 ld b,l
  { mnemonic := ["ld", "mov"], dst := .register, dstR := ["b", "b"], src := .register, srcR := ["l", "l"], noBytes := 1, noCycles := 4 },
  -- 0x46 ld b,(hl)
  { mnemonic := ["ld", "mov"], dst := .register, dstR := ["b", "b"], src := .registerIndirect, srcR := ["hl", "m"], noBytes := 1, noCycles := 7 },
  -- 0x47 ld b,a
  { mnemonic := ["ld", "mov"], dst := .register, dstR := ["b", "b"], src := .register, srcR := ["a", "a"], noBytes := 1, noCycles := 4 },
  -- 0x48 ld c,b
  { mnemonic := ["ld", "mov"], dst := .register, dstR := ["c", "c"], src := .register, srcR := ["b", "b"], noBytes := 1, noCycles := 4 },
  -- 0x49 ld c,c
  { mnemonic := ["ld", "mov"], dst := .register, dstR := ["c", "c"], src := .register, srcR := ["c", "c"], noBytes := 1, noCycles := 4 },
  -- 0x4a ld c,d
  { mnemonic := ["ld", "mov"], dst := .register, dstR := ["c", "c"], src := .register, srcR := ["d", "d"], noBytes := 1, noCycles := 4 },
  -- 0x4b ld c,e
  { mnemonic := ["ld", "mov"], dst := .register, dstR := ["c", "c"], src := .register, srcR := ["e", "e"], noBytes := 1, noCycles := 4 },
  -- 0x4c ld c,h
  { mnemonic := ["ld", "mov"], dst := .register, dstR := ["c", "c"], src := .register, srcR := ["h", "h"], noBytes := 1, noCycles := 4 },
  -- 0x4d
  { mnemonic := ["ld", "mov"], dst := .register, dstR := ["c", "c"], src := .register, srcR := ["l", "l"], noBytes := 1, noCycles := 4 },
  -- 0x4e
  { mnemonic := ["ld", "mov"], dst := .register, dstR := ["c", "c"], src := .registerIndirect, srcR := ["hl", "m"], noBytes := 1, noCycles := 7 },
  -- 0x4f ld c,a
  { mnemonic := ["ld", "mov"], dst := .register, dstR := ["c", "c"], src := .register, srcR := ["a", "a"], noBytes := 1, noCycles := 4 }
]

/-- Go: elements 0x50 to 0x5f of the positional slice literal `opcodes`; the comment
before each element is the comment of the source. -/
def opcodes_5x : List opcode := [
  -- 0x50 ld d,b
  { mnemonic := ["ld", "mov"], dst := .register, dstR := ["d", "d"], src := .register, srcR := ["b", "b"], noBytes := 1, noCycles := 4 },
  -- 0x51 ld d,c
  { mnemonic := ["ld", "mov"], dst := .register, dstR := ["d", "d"], src := .register, srcR := ["c", "c"], noBytes := 1, noCycles := 4 },
  -- 0x52 ld d,d
  { mnemonic := ["ld", "mov"], dst := .register, dstR := ["d", "d"], src := .register, srcR := ["d", "d"], noBytes := 1, noCycles := 4 },
  -- 0x53 ld d,e
  { mnemonic := ["ld", "mov"], dst := .register, dstR := ["d", "d"], src := .register, srcR := ["e", "e"], noBytes := 1, noCycles := 4 },
  -- 0x54 ld d,h
  { mnemonic := ["ld", "mov"], dst := .register, dstR := ["d", "d"], src := .register, srcR := ["h", "h"], noBytes := 1, noCycles := 4 },
  -- 0x55 ld d,l
  { mnemonic := ["ld", "mov"], dst := .register, dstR := ["d", "d"], src := .register, srcR := ["l", "l"], noBytes := 1, noCycles := 4 },
  -- 0x56 ld d,(hl)
  { mnemonic := ["ld", "mov"], dst := .register, dstR := ["d", "d"], src := .registerIndirect, srcR := ["hl", "m"], noBytes := 1, noCycles := 7 },
  -- 0x57 ld d,a
  { mnemonic := ["ld", "mov"], dst := .register, dstR := ["d", "d"], src := .register, srcR := ["a", "a"], noBytes := 1, noCycles := 4 },
  -- 0x58 ld e,b
  { mnemonic := ["ld", "mov"], dst := .register, dstR := ["e", "e"], src := .register, srcR := ["b", "b"], noBytes := 1, noCycles := 4 },
  -- 0x59 ld e,c
  { mnemonic := ["ld", "mov"], dst := .register, dstR := ["e", "e"], src := .register, srcR := ["c", "c"], noBytes := 1, noCycles := 4 },
  -- 0x5a ld e,d
  { mnemonic := ["ld", "mov"], dst := .register, dstR := ["e", "e"], src := .register, srcR := ["d", "d"], noBytes := 1, noCycles := 4 },
  -- 0x5b ld e,e
  { mnemonic := ["ld", "mov"], dst := .register, dstR := ["e", "e"], src := .register, srcR := ["e", "e"], noBytes := 1, noCycles := 4 },
  -- 0x5c ld e,h
  { mnemonic := ["ld", "mov"], dst := .register, dstR := ["e", "e"], src := .register, srcR := ["h", "h"], noBytes := 1, noCycles := 4 },
  -- 0x5d
  { mnemonic := ["ld", "mov"], dst := .register, dstR := ["e", "e"], src := .register, srcR := ["l", "l"], noBytes := 1, noCycles := 4 },
  -- 0x5e ld e,(hl)
  { mnemonic := ["ld", "mov"], dst := .register, dstR := ["e", "e"], src := .registerIndirect, srcR := ["hl", "m"], noBytes := 1, noCycles := 7 },
  -- 0x5f ld e,a
  { mnemonic := ["ld", "mov"], dst := .register, dstR := ["e", "e"], src := .register, srcR := ["a", "a"], noBytes := 1, noCycles := 4 }
]

/-- Go: elements 0x60 to 0x6f of the positional slice literal `opcodes`; the comment
before each element is the comment of the source. -/
def opcodes_6x : List opcode := [
  -- 0x60 ld h,b
  { mnemonic := ["ld", "mov"], dst := .register, dstR := ["h", "h"], src := .register, srcR := ["b", "b"], noBytes := 1, noCycles := 4 },
  -- 0x61 ld h,c
  { mnemonic := ["ld", "mov"], dst := .register, dstR := ["h", "h"], src := .register, srcR := ["c", "c"], noBytes := 1, noCycles := 4 },
  -- 0x62 ld h,d
  { mnemonic := ["ld", "mov"], dst := .register, dstR := ["h", "h"], src := .register, srcR := ["d", "d"], noBytes := 1, noCycles := 4 },
  -- 0x63 ld h,e
  { mnemonic := ["ld", "mov"], dst := .register, dstR := ["h", "h"], src := .register, srcR := ["e", "e"], noBytes := 1, noCycles := 4 },
  -- 0x64 ld h,h
  { mnemonic := ["ld", "mov"], dst := .register, dstR := ["h", "h"], src := .register, srcR := ["h", "h"], noBytes := 1, noCycles := 4 },
  -- 0x65 ld h,l
  { mnemonic := ["ld", "mov"], dst := .register, dstR := ["h", "h"], src := .register, srcR := ["l", "l"], noBytes := 1, noCycles := 4 },
  -- 0x66 ld h,(hl)
  { mnemonic := ["ld", "mov"], dst := .register, dstR := ["h", "h"], src := .registerIndirect, srcR := ["hl", "m"], noBytes := 1, noCycles := 7 },
  -- 0x67 ld h,a
  { mnemonic := ["ld", "mov"], dst := .register, dstR := ["h", "h"], src := .register, srcR := ["a", "a"], noBytes := 1, noCycles := 4 },
  -- 0x68 ld l,b
  { mnemonic := ["ld", "mov"], dst := .register, dstR := ["l", "l"], src := .register, srcR := ["b", "b"], noBytes := 1, noCycles := 4 },
  -- 0x69 ld l,c
  { mnemonic := ["ld", "mov"], dst := .register, dstR := ["l", "l"], src := .register, srcR := ["c", "c"], noBytes := 1, noCycles := 4 },
  -- 0x6a ld l,d
  { mnemonic := ["ld", "mov"], dst := .register, dstR := ["l", "l"], src := .register, srcR := ["d", "d"], noBytes := 1, noCycles := 4 },
  -- 0x6b ld l,e
  { mnemonic := ["ld", "mov"], dst := .register, dstR := ["l", "l"], src := .register, srcR := ["e", "e"], noBytes := 1, noCycles := 4 },
  -- 0x6c ld l,h
  { mnemonic := ["ld", "mov"], dst := .register, dstR := ["l", "l"], src := .register, srcR := ["h", "h"], noBytes := 1, noCycles := 4 },
  -- 0x6d ld l,l
  { mnemonic := ["ld", "mov"], dst := .register, dstR := ["l", "l"], src := .register, srcR := ["l", "l"], noBytes := 1, noCycles := 4 },
  -- 0x6e ld l,(hl)
  { mnemonic := ["ld", "mov"], dst := .register, dstR := ["l", "l"], src := .registerIndirect, srcR := ["hl", "m"], noBytes := 1, noCycles := 7 },
  -- 0x6f ld l,a
  { mnemonic := ["ld", "mov"], dst := .register, dstR := ["l", "l"], src := .register, srcR := ["a", "a"], noBytes := 1, noCycles := 4 }
]

/-- Go: elements 0x70 to 0x7f of the positional slice literal `opcodes`; the comment
before each element is the comment of the source. -/
def opcodes_7x : List opcode := [
  -- 0x70 ld (hl),b
  { mnemonic := ["ld", "mov"], dst := .registerIndirect, dstR := ["hl", "hl"], src := .register, srcR := ["b", "b"], noBytes := 1, noCycles := 7 },
  -- 0x71 ld (hl),c
  { mnemonic := ["ld", "mov"], dst := .registerIndirect, dstR := ["hl", "hl"], src := .register, srcR := ["c", "c"], noBytes := 1, noCycles := 7 },
  -- 0x72 ld (hl),d
  { mnemonic := ["ld", "mov"], dst := .registerIndirect, dstR := ["hl", "hl"], src := .register, srcR := ["d", "d"], noBytes := 1, noCycles := 7 },
  -- 0x73 ld (hl),e
  { mnemonic := ["ld", "mov"], dst := .registerIndirect, dstR := ["hl", "hl"], src := .register, srcR := ["e", "e"], noBytes := 1, noCycles := 7 },
  -- 0x74 ld (hl),h
  { mnemonic := ["ld", "mov"], dst := .registerIndirect, dstR := ["hl", "hl"], src := .register, srcR := ["h", "h"], noBytes := 1, noCycles := 7 },
  -- 0x75 ld (hl),l
  { mnemonic := ["ld", "mov"], dst := .registerIndirect, dstR := ["hl", "hl"], src := .register, srcR := ["l", "l"], noBytes := 1, noCycles := 7 },
  -- 0x76 halt
  { mnemonic := ["halt", "hlt"], noBytes := 1, noCycles := 4 },
  -- 0x77 ld (hl),a
  { mnemonic := ["ld", "mov"], dst := .registerIndirect, dstR := ["hl", "hl"], src := .register, srcR := ["a", "a"], noBytes := 1, noCycles := 7 },
  -- 0x78 ld a,b
  { mnemonic := ["ld", "mov"], dst := .register, dstR := ["a", "a"], src := .register, srcR := ["b", "b"], noBytes := 1, noCycles := 4 },
  -- 0x79 ld a,c
  { mnemonic := ["ld", "mov"], dst := .register, dstR := ["a", "a"], src := .register, srcR := ["c", "c"], noBytes := 1, noCycles := 4 },
  -- 0x7a ld a,d
  { mnemonic := ["ld", "mov"], dst := .register, dstR := ["a", "a"], src := .register, srcR := ["d", "d"], noBytes := 1, noCycles := 4 },
  -- 0x7b ld a,e
  { mnemonic := ["ld", "mov"], dst := .register, dstR := ["a", "a"], src := .register, srcR := ["e", "e"], noBytes := 1, noCycles := 4 },
  -- 0x7c ld a,h
  { mnemonic := ["ld", "mov"], dst := .register, dstR := ["a", "a"], src := .register, srcR := ["h", "h"], noBytes := 1, noCycles := 4 },
  -- 0x7d ld a,l
  { mnemonic := ["ld", "mov"], dst := .register, dstR := ["a", "a"], src := .register, srcR := ["l", "l"], noBytes := 1, noCycles := 4 },
  -- 0x7e ld a,(hl)
  { mnemonic := ["ld", "mov"], dst := .register, dstR := ["a", "a"], src := .registerIndirect, srcR := ["hl", "m"], noBytes := 1, noCycles := 7 },
  -- 0x7f ld a,a
  { mnemonic := ["ld", "mov"], dst := .register, dstR := ["a", "a"], src := .register, srcR := ["a", "a"], noBytes := 1, noCycles := 4 }
]

/-- Go: elements 0x80 to 0x8f of the positional slice literal `opcodes`; the comment
before each element is the comment of the source. -/
def opcodes_8x : List opcode := [
  -- 0x80 add a,b
  { mnemonic := ["add", "add"], dst := .register, dstR := ["a", "b"], src := .register, srcR := ["b"], noBytes := 1, noCycles := 4 },
  -- 0x81 add a,c
  { mnemonic := ["add", "add"], dst := .register, dstR := ["a", "c"], src := .register, srcR := ["c"], noBytes := 1, noCycles := 4 },
  -- 0x82 add a,d
  { mnemonic := ["add", "add"], dst := .register, dstR := ["a", "d"], src := .register, srcR := ["d"], noBytes := 1, noCycles := 4 },
  -- 0x83 add a,e
  { mnemonic := ["add", "add"], dst := .register, dstR := ["a", "e"], src := .register, srcR := ["e"], noBytes := 1, noCycles := 4 },
  -- 0x84 add a,h
  { mnemonic := ["add", "add"], dst := .register, dstR := ["a", "h"], src := .register, srcR := ["h"], noBytes := 1, noCycles := 4 },
  -- 0x85 add a,l
  { mnemonic := ["add", "add"], dst := .register, dstR := ["a", "l"], src := .register, srcR := ["l"], noBytes := 1, noCycles := 4 },
  -- 0x86 add a,(hl)
  { mnemonic := ["add", "add"], dst := .register, dstR := ["a", "a"], src := .register, srcR := ["a"], noBytes := 1, noCycles := 4 },
  -- 0x85 add a,a
  { mnemonic := ["add", "add"], dst := .register, dstR := ["a", "l"], src := .register, srcR := ["l"], noBytes := 1, noCycles := 4 },
  -- 0x88 adc a,b
  { mnemonic := ["add", "adc"], dst := .register, dstR := ["a", "b"], src := .register, srcR := ["b"], noBytes := 1, noCycles := 4 },
  -- 0x89 adc a,c
  { mnemonic := ["add", "adc"], dst := .register, dstR := ["a", "c"], src := .register, srcR := ["c"], noBytes := 1, noCycles := 4 },
  -- 0x8a adc a,d
  { mnemonic := ["add", "adc"], dst := .register, dstR := ["a", "d"], src := .register, srcR := ["d"], noBytes := 1, noCycles := 4 },
  -- 0x8b adc a,e
  { mnemonic := ["add", "adc"], dst := .register, dstR := ["a", "e"], src := .register, srcR := ["e"], noBytes := 1, noCycles := 4 },
  -- 0x8c adc a,h
  { mnemonic := ["add", "adc"], dst := .register, dstR := ["a", "h"], src := .register, srcR := ["h"], noBytes := 1, noCycles := 4 },
  -- 0x8d adc a,l
  { mnemonic := ["add", "adc"], dst := .register, dstR := ["a", "l"], src := .register, srcR := ["l"], noBytes := 1, noCycles := 4 },
  -- 0x8e adc a,(hl)
  { mnemonic := ["add", "adc"], dst := .register, dstR := ["a", "m"], src := .register, srcR := ["(hl)"], noBytes := 1, noCycles := 7 },
  -- 0x8f adc a,a
  { mnemonic := ["add", "adc"], dst := .register, dstR := ["a", "l"], src := .register, srcR := ["l"], noBytes := 1, noCycles := 4 }
]

/-- Go: elements 0x90 to 0x9f of the positional slice literal `opcodes`; the comment
before each element is the comment of the source. -/
def opcodes_9x : List opcode := [
  -- 0x90 sub a,b
  { mnemonic := ["sub", "sub"], dst := .register, dstR := ["a", "a"], src := .register, srcR := ["b", "b"], noBytes := 1, noCycles := 4 },
  -- 0x91 sub a,c
  { mnemonic := ["sub", "sub"], dst := .register, dstR := ["a", "a"], src := .register, srcR := ["c", "c"], noBytes := 1, noCycles := 4 },
  -- 0x92 0x91 sub a,d
  { mnemonic := ["sub", "sub"], dst := .register, dstR := ["a", "a"], src := .register, srcR := ["d", "d"], noBytes := 1, noCycles := 4 },
  -- 0x93 sub a,e
  { mnemonic := ["sub", "sub"], dst := .register, dstR := ["a", "a"], src := .register, srcR := ["e", "e"], noBytes := 1, noCycles := 4 },
  -- 0x94 sub a,h
  { mnemonic := ["sub", "sub"], dst := .register, dstR := ["a", "a"], src := .register, srcR := ["h", "h"], noBytes := 1, noCycles := 4 },
  -- 0x95 sub a,l
  { mnemonic := ["sub", "sub"], dst := .register, dstR := ["a", "a"], src := .register, srcR := ["l", "l"], noBytes := 1, noCycles := 4 },
  -- 0x96 sub a,(hl)
  { mnemonic := ["sub", "sub"], dst := .register, dstR := ["a", "a"], src := .registerIndirect, srcR := ["hl", "m"], noBytes := 1, noCycles := 7 },
  -- 0x97 sub a,a
  { mnemonic := ["sub", "sub"], dst := .register, dstR := ["a", "a"], src := .register, srcR := ["a", "a"], noBytes := 1, noCycles := 4 },
  -- 0x98 sbc a,b
  { mnemonic := ["sbc", "sbc"], dst := .register, dstR := ["a", "a"], src := .register, srcR := ["b", "b"], noBytes := 1, noCycles := 4 },
  -- 0x99 sbc a,c
  { mnemonic := ["sbc", "sbc"], dst := .register, dstR := ["a", "a"], src := .register, srcR := ["c", "c"], noBytes := 1, noCycles := 4 },
  -- 0x9a 0x91 sbc a,d
  { mnemonic := ["sbc", "sbc"], dst := .register, dstR := ["a", "a"], src := .register, srcR := ["d", "d"], noBytes := 1, noCycles := 4 },
  -- 0x9b sbc a,e
  { mnemonic := ["sbc", "sbc"], dst := .register, dstR := ["a", "a"], src := .register, srcR := ["e", "e"], noBytes := 1, noCycles := 4 },
  -- 0x9c sbc a,h
  { mnemonic := ["sbc", "sbc"], dst := .register, dstR := ["a", "a"], src := .register, srcR := ["h", "h"], noBytes := 1, noCycles := 4 },
  -- 0x9d sbc a,l
  { mnemonic := ["sbc", "sbc"], dst := .register, dstR := ["a", "a"], src := .register, srcR := ["l", "l"], noBytes := 1, noCycles := 4 },
  -- 0x9e sbc a,(hl)
  { mnemonic := ["sbc", "sbc"], dst := .register, dstR := ["a", "a"], src := .registerIndirect, srcR := ["hl", "m"], noBytes := 1, noCycles := 7 },
  -- 0x9f sbc a
  { mnemonic := ["sbc", "sbc"], dst := .register, dstR := ["a", "a"], src := .register, srcR := ["a", "a"], noBytes := 1, noCycles := 4 }
]

/-- Go: elements 0xa0 to 0xaf of the positional slice literal `opcodes`; the comment
before each element is the comment of the source. -/
def opcodes_ax : List opcode := [
  -- 0xa0 and a,b
  { mnemonic := ["and", "ana"], dst := .register, dstR := ["a", "a"], src := .register, srcR := ["b", "b"], noBytes := 1, noCycles := 4 },
  -- 0xa1 and a,c
  { mnemonic := ["and", "ana"], dst := .register, dstR := ["a", "a"], src := .register, srcR := ["c", "c"], noBytes := 1, noCycles := 4 },
  -- 0xa2 and a,d
  { mnemonic := ["and", "ana"], dst := .register, dstR := ["a", "a"], src := .register, srcR := ["d", "d"], noBytes := 1, noCycles := 4 },
  -- 0xa3 and a,e
  { mnemonic := ["and", "ana"], dst := .register, dstR := ["a", "a"], src := .register, srcR := ["e", "e"], noBytes := 1, noCycles := 4 },
  -- 0xa4 and a,h
  { mnemonic := ["and", "ana"], dst := .register, dstR := ["a", "a"], src := .register, srcR := ["h", "h"], noBytes := 1, noCycles := 4 },
  -- 0xa5 adn a,l
  { mnemonic := ["and", "ana"], dst := .register, dstR := ["a", "a"], src := .register, srcR := ["l", "l"], noBytes := 1, noCycles := 4 },
  -- 0xa6 and a,(hl)
  { mnemonic := ["and", "ana"], dst := .register, dstR := ["a", "a"], src := .registerIndirect, srcR := ["hl", "m"], noBytes := 1, noCycles := 7 },
  -- 0xa7 and a
  { mnemonic := ["and", "ana"], dst := .register, dstR := ["a", "a"], src := .register, srcR := ["a", "a"], noBytes := 1, noCycles := 4 },
  -- 0xa8 xor a,b
  { mnemonic := ["xor", "xra"], dst := .register, dstR := ["a", "b"], src := .register, srcR := ["b", ""], noBytes := 1, noCycles := 4 },
  -- 0xa9 xor a,c
  { mnemonic := ["xor", "xra"], dst := .register, dstR := ["a", "c"], src := .register, srcR := ["c", ""], noBytes := 1, noCycles := 4 },
  -- 0xaa xor a,d
  { mnemonic := ["xor", "xra"], dst := .register, dstR := ["a", "d"], src := .register, srcR := ["d", ""], noBytes := 1, noCycles := 4 },
  -- 0xab xor a,e
  { mnemonic := ["xor", "xra"], dst := .register, dstR := ["a", "e"], src := .register, srcR := ["e", ""], noBytes := 1, noCycles := 4 },
  -- 0xac xor a,h
  { mnemonic := ["xor", "xra"], dst := .register, dstR := ["a", "h"], src := .register, srcR := ["h", ""], noBytes := 1, noCycles := 4 },
  -- 0xad xor a,l
  { mnemonic := ["xor", "xra"], dst := .register, dstR := ["a", "h"], src := .register, srcR := ["h", ""], noBytes := 1, noCycles := 4 },
  -- 0xae xor a,(hl)
  { mnemonic := ["xor", "xra"], dst := .register, dstR := ["a", "h"], src := .registerIndirect, srcR := ["hl", "m"], noBytes := 1, noCycles := 7 },
  -- 0xaf xor a,a
  { mnemonic := ["xor", "xra"], dst := .register, dstR := ["a", "a"], src := .register, srcR := ["a", ""], noBytes := 1, noCycles := 4 }
]

/-- Go: elements 0xb0 to 0xbf of the positional slice literal `opcodes`; the comment
before each element is the comment of the source. -/
def opcodes_bx : List opcode := [
  -- 0xb0 or b
  { mnemonic := ["or", "ora"], dst := .register, dstR := ["b", "b"], noBytes := 1, noCycles := 4 },
  -- 0xb1 or c
  { mnemonic := ["or", "ora"], dst := .register, dstR := ["c", "c"], noBytes := 1, noCycles := 4 },
  -- 0xb2 or d
  { mnemonic := ["or", "ora"], dst := .register, dstR := ["d", "d"], noBytes := 1, noCycles := 4 },
  -- 0xb3 or e
  { mnemonic := ["or", "ora"], dst := .register, dstR := ["e", "e"], noBytes := 1, noCycles := 4 },
  -- 0xb4 or h
  { mnemonic := ["or", "ora"], dst := .register, dstR := ["h", "h"], noBytes := 1, noCycles := 4 },
  -- 0xb5 or l
  { mnemonic := ["or", "ora"], dst := .register, dstR := ["l", "l"], noBytes := 1, noCycles := 4 },
  -- 0xb6 or (hl)
  { mnemonic := ["or", "ora"], dst := .registerIndirect, dstR := ["hl", "m"], noBytes := 1, noCycles := 7 },
  -- 0xb7 or a
  { mnemonic := ["or", "ora"], dst := .register, dstR := ["a", "a"], noBytes := 1, noCycles := 4 },
  -- 0xb8 cp b
  { mnemonic := ["cp", "cmp"], dst := .register, dstR := ["b", "b"], noBytes := 1, noCycles := 4 },
  -- 0xb9 cp c
  { mnemonic := ["cp", "cmp"], dst := .register, dstR := ["c", "c"], noBytes := 1, noCycles := 4 },
  -- 0xba cp d
  { mnemonic := ["cp", "cmp"], dst := .register, dstR := ["d", "d"], noBytes := 1, noCycles := 4 },
  -- 0xbb cp e
  { mnemonic := ["cp", "cmp"], dst := .register, dstR := ["e", "e"], noBytes := 1, noCycles := 4 },
  -- 0xbc cp h
  { mnemonic := ["cp", "cmp"], dst := .register, dstR := ["h", "h"], noBytes := 1, noCycles := 4 },
  -- 0xbd cp l
  { mnemonic := ["cp", "cmp"], dst := .register, dstR := ["l", "l"], noBytes := 1, noCycles := 4 },
  -- 0xbe
  { mnemonic := ["cp", "cmp"], dst := .registerIndirect, dstR := ["hl", "m"], noBytes := 1, noCycles := 7 },
  -- 0xbf
  { mnemonic := ["cp", "cmp"], dst := .register, dstR := ["a", "a"], noBytes := 1, noCycles := 4 }
]

/-- Go: elements 0xc0 to 0xcf of the positional slice literal `opcodes`; the comment
before each element is the comment of the source. -/
def opcodes_cx : List opcode := [
  -- 0xc0 ret nz
  { mnemonic := ["ret", "rnz"], dst := .condition, dstR := ["nz", ""], noBytes := 1, noCycles := 5 },
  -- 0xc1 pop bc
  { mnemonic := ["pop", "pop"], dst := .register, dstR := ["bc", "b"], noBytes := 1, noCycles := 10 },
  -- 0xc2
  { mnemonic := ["jp", "jnz"], dst := .condition, dstR := ["nz", ""], src := .immediateExtended, noBytes := 3, noCycles := 10 },
  -- 0xc3 jp, nn
  { mnemonic := ["jp", "jmp"], dst := .immediateExtended, noBytes := 3, noCycles := 10 },
  -- 0xc4 call nz
  { mnemonic := ["call", "call"], dst := .condition, dstR := ["nz", ""], src := .immediateExtended, noBytes := 3, noCycles := 10 },
  -- 0xc5 push bc
  { mnemonic := ["push", "push"], dst := .register, dstR := ["bc", "b"], noBytes := 1, noCycles := 11 },
  -- 0xc6 add a,i
  { mnemonic := ["add", "adi"], dst := .register, dstR := ["a", ""], src := .immediate, noBytes := 2, noCycles := 7 },
  -- 0xc7 rst $00
  { mnemonic := ["rst", "rst"], dst := .implied, dstR := ["$00", "0"], noBytes := 1, noCycles := 11 },
  -- 0xc8 ret z
  { mnemonic := ["ret", "rz"], dst := .condition, dstR := ["z", ""], noBytes := 1, noCycles := 5 },
  -- 0xc9 ret
  { mnemonic := ["ret", "ret"], noBytes := 1, noCycles := 10 },
  -- 0xca jp z,nn
  { mnemonic := ["jp", "jz"], dst := .condition, dstR := ["z", ""], src := .immediateExtended, noBytes := 3, noCycles := 10 },
  -- 0xcb
  { multiByte := true },
  -- 0xcc
  {},
  -- 0xcd call nn
  { mnemonic := ["call", "call"], dst := .immediateExtended, noBytes := 3, noCycles := 17 },
  -- 0xce adc a,i
  { mnemonic := ["adc", "aci"], dst := .register, dstR := ["a"], src := .immediate, noBytes := 2, noCycles := 7 },
  -- 0xcf rst $08
  { mnemonic := ["rst", "rst"], dst := .implied, dstR := ["$08", "1"], noBytes := 1, noCycles := 11 }
]

/-- Go: elements 0xd0 to 0xdf of the positional slice literal `opcodes`; the comment
before each element is the comment of the source. -/
def opcodes_dx : List opcode := [
  -- 0xd0 ret nc
  { mnemonic := ["ret", "rnc"], dst := .condition, dstR := ["nc", ""], noBytes := 1, noCycles := 5 },
  -- 0xd1 pop de
  { mnemonic := ["pop", "pop"], dst := .register, dstR := ["de", "d"], noBytes := 1, noCycles := 10 },
  -- 0xd2 jp nc,nn
  { mnemonic := ["jp", "jnc"], dst := .condition, dstR := ["nc", ""], src := .immediateExtended, noBytes := 3, noCycles := 10 },
  -- 0xd3 out (n),a
  { mnemonic := ["out", "out"], dst := .indirect, src := .register, srcR := ["a", ""], noBytes := 2, noCycles := 11 },
  -- 0xd4
  {},
  -- 0xd5 push de
  { mnemonic := ["push", "push"], dst := .register, dstR := ["de", "d"], noBytes := 1, noCycles := 11 },
  -- 0xd6 sub i
  { mnemonic := ["sub", "sub"], dst := .immediate, noBytes := 2, noCycles := 7 },
  -- 0xd7 rst $10
  { mnemonic := ["rst", "rst"], dst := .implied, dstR := ["$10", "2"], noBytes := 1, noCycles := 11 },
  -- 0xd8 ret c
  { mnemonic := ["ret", "rc"], dst := .condition, dstR := ["c", ""], noBytes := 1, noCycles := 5 },
  -- 0xd9
  {},
  -- 0xda jp c,nn
  { mnemonic := ["jp", "jc"], dst := .condition, dstR := ["c", ""], src := .immediateExtended, noBytes := 3, noCycles := 10 },
  -- 0xdb in a,(n)
  { mnemonic := ["in", "in"], dst := .register, dstR := ["a", ""], src := .indirect, noBytes := 2, noCycles := 11 },
  -- 0xdc
  {},
  -- 0xdd z80 multi byte
  { multiByte := true },
  -- 0xde
  {},
  -- 0xdf rst $18
  { mnemonic := ["rst", "rst"], dst := .implied, dstR := ["$18", "3"], noBytes := 1, noCycles := 11 }
]

/-- Go: elements 0xe0 to 0xef of the positional slice literal `opcodes`; the comment
before each element is the comment of the source. -/
def opcodes_ex : List opcode := [
  -- 0xe0
  {},
  -- 0xe1 pop hl
  { mnemonic := ["pop", "pop"], dst := .register, dstR := ["hl", "h"], noBytes := 1, noCycles := 10 },
  -- 0xe2 jp po,nn
  { mnemonic := ["jp", "jpo"], dst := .condition, dstR := ["po", ""], src := .immediateExtended, noBytes := 3, noCycles := 10 },
  -- 0xe3 (sp),hl
  { mnemonic := ["ex", "xthl"], dst := .registerIndirect, dstR := ["sp", ""], src := .register, srcR := ["hl"], noBytes := 1, noCycles := 19 },
  -- 0xe4
  {},
  -- 0xe5 push hl
  { mnemonic := ["push", "push"], dst := .register, dstR := ["hl", "h"], noBytes := 1, noCycles := 11 },
  -- 0xe6 and n
  { mnemonic := ["and", "ani"], dst := .immediate, noBytes := 2, noCycles := 7 },
  -- 0xe7 rst $20
  { mnemonic := ["rst", "rst"], dst := .implied, dstR := ["$20", "4"], noBytes := 1, noCycles := 11 },
  -- 0xe8
  {},
  -- 0xe9 jp (hl)
  { mnemonic := ["jp", "pchl"], dst := .registerIndirect, dstR := ["hl", ""], noBytes := 1, noCycles := 4 },
  -- 0xea jp pe,nn
  { mnemonic := ["jp", "jpe"], dst := .condition, dstR := ["pe", ""], src := .immediateExtended, noBytes := 3, noCycles := 10 },
  -- 0xeb ex de,hl
  { mnemonic := ["ex", "xchg"], dst := .register, dstR := ["de", ""], src := .register, srcR := ["hl", ""], noBytes := 1, noCycles := 4 },
  -- 0xec
  {},
  -- 0xed z80 multi byte
  { multiByte := true },
  -- 0xee
  {},
  -- 0xef rst $28
  { mnemonic := ["rst", "rst"], dst := .implied, dstR := ["$28", "5"], noBytes := 1, noCycles := 11 }
]

/-- Go: elements 0xf0 to 0xff of the positional slice literal `opcodes`; the comment
before each element is the comment of the source. -/
def opcodes_fx : List opcode := [
  -- 0xf0 ret p
  { mnemonic := ["ret", "rp"], dst := .condition, dstR := ["p", ""], noBytes := 1, noCycles := 5 },
  -- 0xf1 pop af
  { mnemonic := ["pop", "pop"], dst := .register, dstR := ["af", "psw"], noBytes := 1, noCycles := 10 },
  -- 0xf2 jp p,nn
  { mnemonic := ["jp", "jp"], dst := .condition, dstR := ["p", ""], src := .immediateExtended, noBytes := 3, noCycles := 10 },
  -- 0xf3 di
  { mnemonic := ["di", "di"], noBytes := 1, noCycles := 4 },
  -- 0xf4
  {},
  -- 0xf5
  { mnemonic := ["push", "push"], dst := .register, dstR := ["af", "psw"], noBytes := 1, noCycles := 11 },
  -- 0xf6 or n
  { mnemonic := ["or", "ori"], dst := .immediate, noBytes := 2, noCycles := 7 },
  -- 0xf7 rst $30
  { mnemonic := ["rst", "rst"], dst := .implied, dstR := ["$30", "4"], noBytes := 1, noCycles := 11 },
  -- 0xf8
  {},
  -- 0xf9
  {},
  -- 0xfa jp m,nn
  { mnemonic := ["jp", "jm"], dst := .condition, dstR := ["m", ""], src := .immediateExtended, noBytes := 3, noCycles := 10 },
  -- 0xfb ei
  { mnemonic := ["ei", "ei"], noBytes := 1, noCycles := 4 },
  -- 0xfc
  {},
  -- 0xfd z80 multi byte
  { multiByte := true },
  -- 0xfe
  { mnemonic := ["cp", "cmp"], dst := .immediate, noBytes := 2, noCycles := 7 },
  -- 0xff rst $38
  { mnemonic := ["rst", "rst"], dst := .implied, dstR := ["$38", "4"], noBytes := 1, noCycles := 11 }
]

/-- Go: `opcodes = []opcode{ ... }` (opcodes.go), a positional slice literal of 256
elements, written here as its sixteen rows of sixteen in the order of the source. -/
def opcodes : List opcode :=
  opcodes_0x ++ opcodes_1x ++ opcodes_2x ++ opcodes_3x ++ opcodes_4x ++ opcodes_5x ++ opcodes_6x ++ opcodes_7x ++
  opcodes_8x ++ opcodes_9x ++ opcodes_ax ++ opcodes_bx ++ opcodes_cx ++ opcodes_dx ++ opcodes_ex ++ opcodes_fx

/-! ## The vocabulary of the properties -/

/-- The zero value `opcode{}` of the source: the slot of an undefined instruction. -/
def zeroOpcode : opcode := {}

/-- A defined entry: the mnemonic list is non-empty, its Z80 form (element 0) is
a non-empty text, the length is at least one byte and `multiByte` is not set. -/
@[reducible] def isDefined (e : opcode) : Prop :=
  e.mnemonic ≠ [] ∧ e.mnemonic.head? ≠ some "" ∧ 1 ≤ e.noBytes ∧ e.multiByte = false

/-- A sentinel of the multi-byte kind: `multiByte` set, no mnemonic, length zero. -/
@[reducible] def isMultiByteSentinel (e : opcode) : Prop :=
  e.multiByte = true ∧ e.mnemonic = [] ∧ e.noBytes = 0

/-- The undefined sentinel: the entry equals the zero value `opcode{}`. -/
@[reducible] def isUndefined (e : opcode) : Prop :=
  e = zeroOpcode

/-- Exactly one of three propositions holds. -/
@[reducible] def exactlyOne (a b c : Prop) : Prop :=
  (a ∧ ¬b ∧ ¬c) ∨ (¬a ∧ b ∧ ¬c) ∨ (¬a ∧ ¬b ∧ c)

/-- The four secondary tables, each beside the base-table byte that selects it. -/
def secondaryTables : List (Nat × List opcode) :=
  [(0xcb, opcodesCB), (0xed, opcodesED), (0xdd, opcodesDD), (0xfd, opcodesFD)]

/-- The elements of all five tables. -/
def allEntries : List opcode :=
  opcodes ++ opcodesCB ++ opcodesED ++ opcodesDD ++ opcodesFD

/-- The base-table indexes that the source fills with `opcode{}`. -/
def emptySlots : List Nat :=
  [0x10, 0x17, 0x20, 0x27, 0x30, 0x38, 0xcc, 0xd4, 0xd9, 0xdc, 0xde, 0xe0, 0xe4, 0xe8, 0xec,
   0xee, 0xf4, 0xf8, 0xf9, 0xfc]

/-- The operand bytes that the addressing modes of an entry imply: 2 when `src` or
`dst` is `immediateExtended` or `extended`, 1 when `src` or `dst` is `immediate`,
`displacement`, `relative`, `indexed` or `indirect`, and 0 otherwise. -/
def operandBytes (e : opcode) : Nat :=
  if e.src ∈ [mode.immediateExtended, mode.extended] ∨
      e.dst ∈ [mode.immediateExtended, mode.extended] then 2
  else if e.src ∈ [mode.immediate, mode.displacement, mode.relative, mode.indexed, mode.indirect] ∨
      e.dst ∈ [mode.immediate, mode.displacement, mode.relative, mode.indexed, mode.indirect] then 1
  else 0

/-- An addressing mode that reads operand bytes from the instruction stream. -/
@[reducible] def readsOperandBytes (m : mode) : Prop :=
  m ∈ [mode.immediateExtended, mode.extended, mode.immediate, mode.displacement,
    mode.relative, mode.indexed, mode.indirect]

/-- Go: the comment of the field `mnemonic`, "z80 = 0, 8080 = 1": the index of
the Z80 form in a per-dialect text list. -/
def dialectZ80 : Nat := 0

/-- Go: the comment of the field `mnemonic`, "z80 = 0, 8080 = 1": the index of
the 8080 form in a per-dialect text list. -/
def dialect8080 : Nat := 1

/-- Go: the index expression `l[i]` on a `[]string`; `none` is the run-time
panic "index out of range". -/
def textAt (l : List String) (i : Nat) : Option String :=
  l[i]?

/-! ## Decoding, from the specification -/

/-- What the decoder makes of a table entry. -/
inductive Decoded where
  | instruction
  | redispatch
  | decodeError
deriving DecidableEq, Repr

/-- Modelled from the spec: the decoder (package z80 beyond its tables) is not
among the sources. Section 4.2: an entry with the multi-byte flag set re-dispatches
the next byte through a secondary table; an entry with no mnemonic and the flag
clear is an undefined instruction, and decoding it is a decode error; any other
entry is an instruction. -/
def classify (e : opcode) : Decoded :=
  if e.multiByte then Decoded.redispatch
  else if e.mnemonic = [] then Decoded.decodeError
  else Decoded.instruction

/-- Modelled from the spec: the decode of a raw byte through the base table,
`none` where the index expression is out of range. -/
def decodeByte (b : Nat) : Option Decoded :=
  (index opcodes b).map classify

/-- A decoded instruction: its table entry and the operand bytes that follow
the opcode byte. -/
structure Insn where
  entry : opcode
  operand : List Nat
deriving DecidableEq, Repr

/-- Modelled from the spec: one decode step over an image with the lengths of
the base table (section 4.4: fetch the opcode byte, advance by the bytes the
opcode consumes). The step fails on an entry that is not an instruction and on an
instruction that runs past the end of the image. -/
def decodeAt (img : List Nat) (off : Nat) : Option Insn :=
  match img[off]? with
  | none => none
  | some b =>
    match index opcodes b with
    | none => none
    | some e =>
      if classify e = Decoded.instruction ∧ 1 ≤ e.noBytes ∧ off + e.noBytes ≤ img.length then
        some ⟨e, (img.drop (off + 1)).take (e.noBytes - 1)⟩
      else none

/-- Modelled from the spec: the instructions of an image decoded one after the
other from offset `off` until the end of the image is reached exactly; `fuel`
bounds the number of instructions. -/
def sweep (img : List Nat) : Nat → Nat → Option (List Insn)
  | 0, off => if off = img.length then some [] else none
  | fuel + 1, off =>
    if off = img.length then some []
    else
      match decodeAt img off with
      | none => none
      | some i => (sweep img fuel (off + i.entry.noBytes)).map (fun rest => i :: rest)

/-- Modelled from the spec: a 16-bit operand is two bytes, low byte first
(section 4.3, little-endian). -/
def le16 (bs : List Nat) : Option Nat :=
  match bs with
  | [lo, hi] => some (lo + 256 * hi)
  | _ => none

/-! ## The images and devices of `_main` (toyz80.go) -/

/-- Go: the device kinds of package `bus` that `_main` names. -/
inductive DeviceType where
  | DeviceROM
  | DeviceRAM
  | DeviceSerialConsole
deriving DecidableEq, Repr

/-- Go: `bus.Device` with the fields that `_main` fills in (the field `Type` of
the source is `Typ` here); an `Image` left out is nil. -/
structure Device where
  Name : String
  Start : Nat
  Size : Nat
  Typ : DeviceType
  Image : List Nat := []
deriving DecidableEq, Repr

/-- Go: the image selection of `_main`. `bootImage` and `ramImage` are the values
of the flags `-boot` and `-ramimage`, `readFile` stands for `ioutil.ReadFile`
(`none` is its error, which `_main` returns). The result is the pair
`(boot, ram)`. -/
def mainImages (bootImage ramImage : String) (readFile : String → Option (List Nat)) :
    Option (List Nat × List Nat) := do
  let mut boot : List Nat := []
  let mut ram : List Nat := []
  if bootImage = "" then
    -- minimal rom
    boot := [0x31, 0x00, 0xee, 0xc3, 0x00, 0x10]
    ram := [0x76]
  else
    boot ← readFile bootImage
  if ramImage ≠ "" then
    ram ← readFile ramImage
  return (boot, ram)

/-- Go: the slice `devices` of `_main`. -/
def devices (boot ram : List Nat) : List Device := [
  { Name := "Boot ROM", Start := 0x0000, Size := 0x1000, Typ := DeviceType.DeviceROM, Image := boot },
  { Name := "working memory", Start := 0x1000, Size := 0xe000, Typ := DeviceType.DeviceRAM, Image := ram },
  -- I/O space
  { Name := "serial console", Start := 0x02, Size := 0x02, Typ := DeviceType.DeviceSerialConsole }
]

/-- Modelled from the spec: package `bus` is not among the sources. Sections 3
and 4.1: a memory read goes to the memory device (ROM or RAM; the serial console
is in I/O space) whose range `Start .. Start + Size - 1` holds the address and
returns the image byte at the offset `address - Start`, zero beyond the length
of the image; `none` is the unmapped access. -/
def busRead (ds : List Device) (a : Nat) : Option Nat :=
  match ds.find? (fun d =>
      d.Typ != DeviceType.DeviceSerialConsole && decide (d.Start ≤ a) && decide (a < d.Start + d.Size)) with
  | some d => some (d.Image.getD (a - d.Start) 0)
  | none => none

/-! ## Single elements of the tables, as the source writes them -/

/-- Go: the element written at index 0x08 of `opcodes`, `ex af,af'`. -/
def op_ex_af : opcode :=
  { mnemonic := ["ex"], dst := mode.register, dstR := ["af"], src := mode.register, srcR := ["af'"], noBytes := 1, noCycles := 4 }

/-- Go: the element written at index 0x11 of `opcodes`, `ld de,nn`. -/
def op_ld_de_nn : opcode :=
  { mnemonic := ["ld", "lxi"], dst := mode.register, dstR := ["de", "d"], src := mode.immediateExtended, noBytes := 3, noCycles := 10 }

/-- Go: the element written at index 0x31 of `opcodes`, `ld sp,nn`. -/
def op_ld_sp_nn : opcode :=
  { mnemonic := ["ld", "lxi"], dst := mode.register, dstR := ["sp", "sp"], src := mode.immediateExtended, noBytes := 3, noCycles := 10 }

/-- Go: the element written at index 0x76 of `opcodes`, `halt`. -/
def op_halt : opcode :=
  { mnemonic := ["halt", "hlt"], noBytes := 1, noCycles := 4 }

/-- Go: the element written at index 0x80 of `opcodes`, `add a,b`. -/
def op_add_a_b : opcode :=
  { mnemonic := ["add", "add"], dst := mode.register, dstR := ["a", "b"], src := mode.register, srcR := ["b"], noBytes := 1, noCycles := 4 }

/-- Go: the element written at index 0xc3 of `opcodes`, `jp nn`. -/
def op_jp_nn : opcode :=
  { mnemonic := ["jp", "jmp"], dst := mode.immediateExtended, noBytes := 3, noCycles := 10 }

/-- Go: the element written at index 0xcb (and 0xdd, 0xed, 0xfd) of `opcodes`. -/
def op_multiByte : opcode :=
  { multiByte := true }

/-- Go: the element written at key 0x27 of `opcodesCB`, `sla a`. -/
def op_sla_a : opcode :=
  { mnemonic := ["sla", ""], dst := mode.register, dstR := ["a"], noBytes := 2, noCycles := 8 }

/-- Go: the element written at key 0x23 of `opcodesDD`, `inc ix`. -/
def op_inc_ix : opcode :=
  { mnemonic := ["inc"], dst := mode.register, dstR := ["ix"], noBytes := 2, noCycles := 10 }

/-- Go: the element written at index 0xc6 of `opcodes`, `add a,n`. -/
def op_add_a_n : opcode :=
  { mnemonic := ["add", "adi"], dst := mode.register, dstR := ["a", ""], src := mode.immediate, noBytes := 2, noCycles := 7 }

/-- Go: the element written at index 0xce of `opcodes`, `adc a,n`. -/
def op_adc_a_n : opcode :=
  { mnemonic := ["adc", "aci"], dst := mode.register, dstR := ["a"], src := mode.immediate, noBytes := 2, noCycles := 7 }

/-- Go: the element written at index 0x28 of `opcodes`, `jr z,d`; the source
comments its `noCycles` with "XXX or 7". -/
def op_jr_z : opcode :=
  { mnemonic := ["jr", ""], dst := mode.condition, dstR := ["z", ""], src := mode.displacement, noBytes := 2, noCycles := 12 }

/-- Go: the element written at index 0x8e of `opcodes`, `adc a,(hl)`. -/
def op_adc_a_hl : opcode :=
  { mnemonic := ["add", "adc"], dst := mode.register, dstR := ["a", "m"], src := mode.register, srcR := ["(hl)"], noBytes := 1, noCycles := 7 }

/-- Go: the element written at index 0x96 of `opcodes`, `sub a,(hl)`. -/
def op_sub_a_hl : opcode :=
  { mnemonic := ["sub", "sub"], dst := mode.register, dstR := ["a", "a"], src := mode.registerIndirect, srcR := ["hl", "m"], noBytes := 1, noCycles := 7 }

/-- Go: the element written at index 0xc0 of `opcodes`, `ret nz`. -/
def op_ret_nz : opcode :=
  { mnemonic := ["ret", "rnz"], dst := mode.condition, dstR := ["nz", ""], noBytes := 1, noCycles := 5 }

/-- Go: the element written at index 0xc2 of `opcodes`, `jp nz,nn`. -/
def op_jp_nz : opcode :=
  { mnemonic := ["jp", "jnz"], dst := mode.condition, dstR := ["nz", ""], src := mode.immediateExtended, noBytes := 3, noCycles := 10 }

/-- Go: the element written at index 0xc4 of `opcodes`, `call nz,nn`. -/
def op_call_nz : opcode :=
  { mnemonic := ["call", "call"], dst := mode.condition, dstR := ["nz", ""], src := mode.immediateExtended, noBytes := 3, noCycles := 10 }

/-- Go: the element written at index 0xc9 of `opcodes`, `ret`. -/
def op_ret : opcode :=
  { mnemonic := ["ret", "ret"], noBytes := 1, noCycles := 10 }

/-- Go: the element written at index 0xcd of `opcodes`, `call nn`. -/
def op_call_nn : opcode :=
  { mnemonic := ["call", "call"], dst := mode.immediateExtended, noBytes := 3, noCycles := 17 }

/-- Go: the element written at index 0xfa of `opcodes`, `jp m,nn`. -/
def op_jp_m : opcode :=
  { mnemonic := ["jp", "jm"], dst := mode.condition, dstR := ["m", ""], src := mode.immediateExtended, noBytes := 3, noCycles := 10 }

/-- Go: the element written at index 0xff of `opcodes`, `rst $38`. -/
def op_rst_38 : opcode :=
  { mnemonic := ["rst", "rst"], dst := mode.implied, dstR := ["$38", "4"], noBytes := 1, noCycles := 11 }

/-- Go: the element written at index 0x46 of `opcodes`, `ld b,(hl)`. -/
def op_ld_b_hl : opcode :=
  { mnemonic := ["ld", "mov"], dst := mode.register, dstR := ["b", "b"], src := mode.registerIndirect, srcR := ["hl", "m"], noBytes := 1, noCycles := 7 }

/-! ## The vocabulary of the operand hints -/

/-- An entry has a form in the 8080 dialect: element 1 of its mnemonic list
exists and is a non-empty text. -/
@[reducible] def has8080Mnemonic (e : opcode) : Prop :=
  textAt e.mnemonic dialect8080 ≠ none ∧ textAt e.mnemonic dialect8080 ≠ some ""

/-- An entry has a form in the Z80 dialect: element 0 of its mnemonic list
exists and is a non-empty text. -/
@[reducible] def hasZ80Mnemonic (e : opcode) : Prop :=
  textAt e.mnemonic dialectZ80 ≠ none ∧ textAt e.mnemonic dialectZ80 ≠ some ""

/-- The names of the registers and register pairs. -/
def registerNames : List String :=
  ["a", "b", "c", "d", "e", "h", "l", "af", "af'", "bc", "de", "hl", "sp", "ix", "iy"]

/-- The Z80 hint of an operand names a register or a register pair. -/
@[reducible] def namesRegister (hint : List String) : Prop :=
  ∃ r ∈ registerNames, textAt hint dialectZ80 = some r

/-- An operand with mode `register` or `registerIndirect` has a Z80 hint that
names a register or a register pair; an operand of another mode is not
constrained. -/
@[reducible] def registerOperandNamed (m : mode) (hint : List String) : Prop :=
  (m = mode.register ∨ m = mode.registerIndirect) → namesRegister hint

/-- The condition names in the order of bits 5..3 of the opcode. -/
def conditionNames : List String :=
  ["nz", "z", "nc", "c", "po", "pe", "p", "m"]

/-- The condition that bits 5..3 of an opcode select. -/
def conditionOf (op : Nat) : Option String :=
  conditionNames[(op >>> 3) &&& 7]?

/-- One lowercase hexadecimal digit. -/
def hexDigit (n : Nat) : String :=
  (["0", "1", "2", "3", "4", "5", "6", "7", "8", "9", "a", "b", "c", "d", "e", "f"].getD n "")

/-- The restart vector of a restart opcode, `op & 0x38`, written as "$" and two
lowercase hexadecimal digits. -/
def restartHint (op : Nat) : String :=
  "$" ++ hexDigit ((op &&& 0x38) / 16) ++ hexDigit ((op &&& 0x38) % 16)

/-- The opcodes 0xc7 + 8k for k = 0..7. -/
def restartOpcodes : List Nat :=
  [0xc7, 0xcf, 0xd7, 0xdf, 0xe7, 0xef, 0xf7, 0xff]

/-- The 8-bit operands in the order of a three-bit register field; field 6 is
the memory operand `(hl)`. -/
def r8 : List String :=
  ["b", "c", "d", "e", "h", "l", "(hl)", "a"]

/-- The operand that a three-bit register field `k` prescribes: for `k = 6` the
mode `registerIndirect` with Z80 hint `hl`, otherwise the mode `register` with
Z80 hint `r8[k]`. -/
@[reducible] def operandIs (m : mode) (hint : List String) (k : Nat) : Prop :=
  if k = 6 then m = mode.registerIndirect ∧ textAt hint dialectZ80 = some "hl"
  else m = mode.register ∧ textAt hint dialectZ80 = r8[k]?

/-! ## The address ranges of the devices -/

/-- The address range of a device: `Start` up to `Start + Size - 1`. -/
@[reducible] def covers (d : Device) (a : Nat) : Prop :=
  d.Start ≤ a ∧ a < d.Start + d.Size

/-- A memory device: ROM or RAM; the serial console is in I/O space. -/
@[reducible] def isMemory (d : Device) : Prop :=
  d.Typ = DeviceType.DeviceROM ∨ d.Typ = DeviceType.DeviceRAM

/-! ## The end of `_main` (toyz80.go): the report of the trace -/

/-- Go: the `error` that `cpu.Trace` returns when it is not nil: the variable
`z80.ErrHalt`, or another error with its text. -/
inductive TraceError where
  | ErrHalt
  | other (text : String)
deriving DecidableEq, Repr

/-- Go: `fmt.Fprintf(os.Stderr, "%-25s%s\n", line, registers[i])`: the line
padded with blanks on the right to 25 characters, the registers, a newline. -/
def formatLine (line reg : String) : String :=
  line ++ String.mk (List.replicate (25 - line.length) (Char.ofNat 32)) ++ reg ++ "\n"

/-- Go: `for i, line := range trace`, from index `i` on; `none` is the panic of
the index expression `registers[i]` out of range. -/
def printTrace (registers : List String) : Nat → List String → Option (List String)
  | _, [] => some []
  | i, line :: rest =>
    match registers[i]? with
    | none => none
    | some reg => (printTrace registers (i + 1) rest).map (fun out => formatLine line reg :: out)

/-- What `_main` has done when it returns: the trace lines and the error text
written to stderr, and the `error` it returns (`none` is nil). -/
structure MainOutcome where
  traceOut : List String
  errOut : Option String
  ret : Option TraceError
deriving DecidableEq, Repr

/-- Go: the text of `fmt.Fprintf(os.Stderr, "%v", err)`; `haltText` is the text of
`z80.ErrHalt`, which is not among the sources. -/
def errorText (haltText : String) : TraceError → String
  | TraceError.ErrHalt => haltText
  | TraceError.other text => text

/-- Go: `_main` from the return of `cpu.Trace` on: print the trace, print `err`
when `err != nil && err != z80.ErrHalt`, `return nil`. `none` is the panic of
`registers[i]`. -/
def mainAfterTrace (haltText : String) (trace registers : List String)
    (err : Option TraceError) : Option MainOutcome :=
  match printTrace registers 0 trace with
  | none => none
  | some out =>
    match err with
    | none => some ⟨out, none, none⟩
    | some e =>
      if e ≠ TraceError.ErrHalt then some ⟨out, some (errorText haltText e), none⟩
      else some ⟨out, none, none⟩

/-- Go: the element written at index 0x03 of `opcodes`, which the source comments
"0x03 inc bc". -/
def op_inc_bc : opcode :=
  { mnemonic := ["inc", "inx"], dst := mode.register, dstR := ["bc", "b"], noBytes := 1, noCycles := 6 }

/-- Go: the element written at index 0x05 of `opcodes`, which the source comments
"0x05 dec b". -/
def op_dec_b : opcode :=
  { mnemonic := ["dec", "dcr"], dst := mode.register, dstR := ["b", "b"], noBytes := 1, noCycles := 4 }

/-- Go: the element written at index 0x06 of `opcodes`, which the source comments
"0x06 ld b,n". -/
def op_ld_b_n : opcode :=
  { mnemonic := ["ld", "mvi"], dst := mode.register, dstR := ["b", "b"], src := mode.immediate, noBytes := 2, noCycles := 7 }

/-- Go: the element written at index 0x09 of `opcodes`, which the source comments
"0x09 add hl,bc". -/
def op_add_hl_bc : opcode :=
  { mnemonic := ["add", "dad"], dst := mode.register, dstR := ["hl", "b"], src := mode.register, srcR := ["bc", ""], noBytes := 1, noCycles := 11 }

/-- Go: the element written at index 0x0b of `opcodes`, which the source comments
"0x0b dec bc". -/
def op_dec_bc : opcode :=
  { mnemonic := ["dec", "dcx"], dst := mode.register, dstR := ["bc", "d"], noBytes := 1, noCycles := 6 }

/-- Go: the element written at index 0x19 of `opcodes`, which the source comments
"0x19 add hl,de". -/
def op_add_hl_de : opcode :=
  { mnemonic := ["add", "dad"], dst := mode.register, dstR := ["hl", "d"], src := mode.registerIndirect, srcR := ["de", ""], noBytes := 1, noCycles := 11 }

/-- Go: the element written at index 0x29 of `opcodes`, which the source comments
"0x29 add hl,hl". -/
def op_add_hl_hl : opcode :=
  { mnemonic := ["add", "dad"], dst := mode.register, dstR := ["hl", "h"], src := mode.register, srcR := ["hl", ""], noBytes := 1, noCycles := 11 }

/-- Go: the element written at index 0x33 of `opcodes`, which the source comments
"0x33 inc de". -/
def op_inc_sp : opcode :=
  { mnemonic := ["inc", "inx"], dst := mode.register, dstR := ["sp", "h"], noBytes := 1, noCycles := 6 }

/-- Go: the element written at index 0x34 of `opcodes`, which the source comments
"0x34 inc (hl)". -/
def op_inc_hl : opcode :=
  { mnemonic := ["inc", "inr"], dst := mode.registerIndirect, dstR := ["hl", "m"], noBytes := 1, noCycles := 11 }

/-- Go: the element written at index 0x35 of `opcodes`, which the source comments
"0x35 dec (hl)". -/
def op_dec_hl : opcode :=
  { mnemonic := ["dec", "dec"], dst := mode.registerIndirect, dstR := ["hl", "m"], noBytes := 1, noCycles := 11 }

/-- Go: the element written at index 0x36 of `opcodes`, which the source comments
"0x36 ld (hl),n". -/
def op_ld_hl_n : opcode :=
  { mnemonic := ["ld", "mov"], dst := mode.registerIndirect, dstR := ["hl", "m"], src := mode.immediate, noBytes := 2, noCycles := 10 }

/-- Go: the element written at index 0x39 of `opcodes`, which the source comments
"0x39 add hl,sp". -/
def op_add_hl_sp : opcode :=
  { mnemonic := ["add", "dad"], dst := mode.register, dstR := ["hl", "sp"], src := mode.registerIndirect, srcR := ["sp", ""], noBytes := 1, noCycles := 11 }

/-- Go: the element written at index 0x3b of `opcodes`, which the source comments
"0x3b dec sp". -/
def op_dec_sp : opcode :=
  { mnemonic := ["dec", "dcx"], dst := mode.register, dstR := ["sp", "sp"], noBytes := 1, noCycles := 6 }

/-- Go: the element written at index 0x86 of `opcodes`, which the source comments
"0x86 add a,(hl)". -/
def op_add_a_hl : opcode :=
  { mnemonic := ["add", "add"], dst := mode.register, dstR := ["a", "a"], src := mode.register, srcR := ["a"], noBytes := 1, noCycles := 4 }

/-- Go: the element written at index 0x87 of `opcodes`, which the source comments
"0x85 add a,a". -/
def op_add_a_a : opcode :=
  { mnemonic := ["add", "add"], dst := mode.register, dstR := ["a", "l"], src := mode.register, srcR := ["l"], noBytes := 1, noCycles := 4 }

/-- Go: the element written at index 0x88 of `opcodes`, which the source comments
"0x88 adc a,b". -/
def op_adc_a_b : opcode :=
  { mnemonic := ["add", "adc"], dst := mode.register, dstR := ["a", "b"], src := mode.register, srcR := ["b"], noBytes := 1, noCycles := 4 }

/-- Go: the element written at index 0x8f of `opcodes`, which the source comments
"0x8f adc a,a". -/
def op_adc_a_a : opcode :=
  { mnemonic := ["add", "adc"], dst := mode.register, dstR := ["a", "l"], src := mode.register, srcR := ["l"], noBytes := 1, noCycles := 4 }

/-- Go: the element written at index 0xad of `opcodes`, which the source comments
"0xad xor a,l". -/
def op_xor_a_l : opcode :=
  { mnemonic := ["xor", "xra"], dst := mode.register, dstR := ["a", "h"], src := mode.register, srcR := ["h", ""], noBytes := 1, noCycles := 4 }

/-- Go: the element written at index 0xb6 of `opcodes`, which the source comments
"0xb6 or (hl)". -/
def op_or_hl : opcode :=
  { mnemonic := ["or", "ora"], dst := mode.registerIndirect, dstR := ["hl", "m"], noBytes := 1, noCycles := 7 }

/-- Go: the element written at index 0xf1 of `opcodes`, which the source comments
"0xf1 pop af". -/
def op_pop_af : opcode :=
  { mnemonic := ["pop", "pop"], dst := mode.register, dstR := ["af", "psw"], noBytes := 1, noCycles := 10 }

/-- Go: the element written at index 0xf7 of `opcodes`, which the source comments
"0xf7 rst $30". -/
def op_rst_30 : opcode :=
  { mnemonic := ["rst", "rst"], dst := mode.implied, dstR := ["$30", "4"], noBytes := 1, noCycles := 11 }
/-! ## The vocabulary of the opcode rows -/

/-- The base table yields at index `i` an element with the property `P`. -/
def entryAt (i : Nat) (P : opcode → Prop) : Prop :=
  ∃ e, index opcodes i = some e ∧ P e

instance entryAt_decidable (i : Nat) (P : opcode → Prop) [DecidablePred P] :
    Decidable (entryAt i P) :=
  decidable_of_iff ((index opcodes i).any (fun e => decide (P e)) = true) (by
    unfold entryAt
    cases index opcodes i <;> simp [Option.any])

/-- The ALU operations in the order of bits 5..3 of the opcodes 0x80..0xbf. -/
def aluNames : List String :=
  ["add", "adc", "sub", "sbc", "and", "xor", "or", "cp"]

/-- The ALU operation that bits 5..3 of an opcode select. -/
def aluOf (op : Nat) : Option String :=
  aluNames[(op >>> 3) &&& 7]?

/-- An entry of a row with accumulator destination at opcode `op`: `dst` is the
register `a` and `src` is the operand that the low three bits of `op` select. -/
@[reducible] def accumulatorRowEntry (op : Nat) (e : opcode) : Prop :=
  e.dst = mode.register ∧ textAt e.dstR dialectZ80 = some "a" ∧ operandIs e.src e.srcR (op &&& 7)

/-- An entry of a row with a sole operand at opcode `op`: `dst` is the operand
that the low three bits of `op` select and there is no `src`. -/
@[reducible] def soleOperandRowEntry (op : Nat) (e : opcode) : Prop :=
  operandIs e.dst e.dstR (op &&& 7) ∧ e.src = mode.invalid ∧ e.srcR = []

/-- The opcodes of the add, adc and xor rows. -/
def addAdcXorOpcodes : List Nat :=
  List.range' 0x80 16 ++ List.range' 0xa8 8

/-- The opcodes 0x80..0xbf. -/
def aluOpcodes : List Nat :=
  List.range' 0x80 64

/-- The opcodes 0x40..0xbf other than 0x76. -/
def loadAndAluOpcodes : List Nat :=
  (List.range' 0x40 128).filter (fun op => op != 0x76)

/-- An instruction of 0x40..0xbf has a `(hl)` memory operand: the low three bits
are 6, or below 0x80 bits 5..3 are 6. -/
@[reducible] def hasMemoryOperand (op : Nat) : Prop :=
  op &&& 7 = 6 ∨ (op < 0x80 ∧ (op >>> 3) &&& 7 = 6)

/-- The cycles of an instruction of 0x40..0xbf: 7 with a `(hl)` memory operand,
4 without. -/
def loadAndAluCycles (op : Nat) : Nat :=
  if hasMemoryOperand op then 7 else 4

/-- The opcodes 0x04 + 8k, 0x05 + 8k and 0x06 + 8k for k = 0..7. -/
def incDecLdOpcodes : List Nat :=
  (List.range 8).flatMap (fun k => [0x04 + 8 * k, 0x05 + 8 * k, 0x06 + 8 * k])

/-- The 8080 mnemonic of the instruction class that the low three bits of an
opcode of `incDecLdOpcodes` select: `inr`, `dcr`, `mvi`. -/
def legacyClassName (op : Nat) : Option String :=
  if op % 8 = 4 then some "inr"
  else if op % 8 = 5 then some "dcr"
  else if op % 8 = 6 then some "mvi"
  else none

/-- One decimal digit. -/
def decimalDigit (n : Nat) : String :=
  (["0", "1", "2", "3", "4", "5", "6", "7", "8", "9"].getD n "")

/-- The restart number of a restart opcode 0xc7 + 8k: k, bits 5..3 of the opcode. -/
def restartNumber (op : Nat) : Nat :=
  (op >>> 3) &&& 7

/-- The register pairs in the order of bits 5..4 of an opcode. -/
def pairNames : List String :=
  ["bc", "de", "hl", "sp"]

/-- The register pairs of `push` and `pop` in the order of bits 5..4 of an opcode. -/
def stackPairNames : List String :=
  ["bc", "de", "hl", "af"]

/-- The 8080 name of a register pair: bc is b, de is d, hl is h, sp is sp. -/
def legacyPairName (pair : String) : Option String :=
  if pair = "bc" then some "b"
  else if pair = "de" then some "d"
  else if pair = "hl" then some "h"
  else if pair = "sp" then some "sp"
  else none

/-- The opcodes 0x03 + 16k and 0x0b + 16k for k = 0..3. -/
def incDecPairOpcodes : List Nat :=
  (List.range 4).flatMap (fun k => [0x03 + 16 * k, 0x0b + 16 * k])

/-- The 8080 `dst` hint of an entry names the register pair of its Z80 `dst`
hint. -/
@[reducible] def legacyPairHintAgrees (e : opcode) : Prop :=
  textAt e.dstR dialectZ80 ≠ none ∧
  textAt e.dstR dialect8080 = (textAt e.dstR dialectZ80).bind legacyPairName

/-- The opcodes of a list at which the base table does not yield an element with
the property `P`. -/
def offenders (ops : List Nat) (P : Nat → opcode → Prop) [∀ i, DecidablePred (P i)] : List Nat :=
  ops.filter (fun i => decide (¬ entryAt i (P i)))

/-! ## Further single elements of the tables -/

/-- Go: the element written at index 0x22 of `opcodes`, which the source comments
"0x22 ld (nn),hl". -/
def op_ld_nn_hl : opcode :=
  { mnemonic := ["ld", "shld"], dst := mode.extended, src := mode.register, srcR := ["hl", ""], noBytes := 3, noCycles := 16 }

/-- Go: the element written at index 0x23 of `opcodes`, which the source comments
"0x23 inc de". -/
def op_inc_pair_hl : opcode :=
  { mnemonic := ["inc", "inx"], dst := mode.register, dstR := ["hl", "h"], noBytes := 1, noCycles := 6 }

/-- Go: the element written at index 0x2a of `opcodes`, which the source comments
"0x2a ld hl,(nn)". -/
def op_ld_hl_nn : opcode :=
  { mnemonic := ["ld", "lhld"], dst := mode.register, dstR := ["hl", ""], src := mode.extended, noBytes := 3, noCycles := 16 }

/-- Go: the element written at index 0x32 of `opcodes`, which the source comments
"0x32 ld (nn),a". -/
def op_ld_nn_a : opcode :=
  { mnemonic := ["ld", "sta"], dst := mode.immediateExtended, src := mode.register, srcR := ["a", ""], noBytes := 3, noCycles := 13 }

/-- Go: the element written at index 0x3a of `opcodes`, which the source comments
"0x3a ld a,(nn)". -/
def op_ld_a_nn : opcode :=
  { mnemonic := ["ld", "lda"], dst := mode.register, dstR := ["a", ""], src := mode.extended, noBytes := 3, noCycles := 7 }

/-- Go: the element written at index 0xe5 of `opcodes`, which the source comments
"0xe5 push hl". -/
def op_push_hl : opcode :=
  { mnemonic := ["push", "push"], dst := mode.register, dstR := ["hl", "h"], noBytes := 1, noCycles := 11 }

/-- Go: the element written at key 0x23 of `opcodesFD`, `inc iy`. -/
def op_inc_iy : opcode :=
  { mnemonic := ["inc"], dst := mode.register, dstR := ["iy"], noBytes := 2, noCycles := 10 }

/-- Go: the element written at key 0xe5 of `opcodesDD`, `push ix`. -/
def op_push_ix : opcode :=
  { mnemonic := ["push"], dst := mode.register, dstR := ["ix"], noBytes := 2, noCycles := 15 }

/-! ## The vocabulary of the absolute addresses and of the index tables -/

/-- The opcodes whose operand is an absolute 16-bit memory address: the stores
`ld (nn),hl` and `ld (nn),a` and the loads `ld hl,(nn)` and `ld a,(nn)`. -/
def absoluteAddressOpcodes : List Nat :=
  [0x22, 0x2a, 0x32, 0x3a]

/-- The operand of an absolute 16-bit memory address has the mode `extended`:
`dst` of the stores at 0x22 and 0x32, `src` of the loads at 0x2a and 0x3a. -/
@[reducible] def addressOperandExtended (op : Nat) (e : opcode) : Prop :=
  if op = 0x22 ∨ op = 0x32 then e.dst = mode.extended else e.src = mode.extended

/-- The keys written in the keyed slice literals `opcodesDD` and `opcodesFD`. -/
def indexTableKeys : List Nat :=
  [0x23, 0x2b, 0xe1, 0xe5]

/-- A populated slot: the element is not the zero value `opcode{}`. -/
@[reducible] def isPopulated (e : opcode) : Prop :=
  e ≠ zeroOpcode

/-- The elements of `opcodesDD` and of `opcodesFD` at one index agree on
everything but the `dst` hint. -/
@[reducible] def agreeButDstHint (d f : opcode) : Prop :=
  d.mnemonic = f.mnemonic ∧ d.src = f.src ∧ d.dst = f.dst ∧ d.noBytes = f.noBytes ∧
  d.noCycles = f.noCycles ∧ d.srcR = f.srcR ∧ d.multiByte = f.multiByte

/-- The base-table element `b` is the HL instruction of the element `p` of an
index table: same Z80 mnemonic, same `dst` mode, Z80 `dst` hint `hl`, and `p`
costs one byte and four cycles more. -/
@[reducible] def isHlFormOf (p b : opcode) : Prop :=
  textAt b.mnemonic dialectZ80 = textAt p.mnemonic dialectZ80 ∧
  textAt b.mnemonic dialectZ80 ≠ none ∧ b.dst = p.dst ∧
  textAt b.dstR dialectZ80 = some "hl" ∧
  p.noBytes = b.noBytes + 1 ∧ p.noCycles = b.noCycles + 4


/-! ## Properties of the decode tables -/

set_option maxRecDepth 100000

/-- An index expression that yields an element pairs the index with that
element in the enumeration of the slice. -/
theorem index_mem_enum {t : List opcode} {i : Nat} {e : opcode} (h : index t i = some e) :
    (i, e) ∈ t.enum :=
  List.mk_mem_enum_iff_getElem?.2 h

/-- An index below the length of a slice yields an element. -/
theorem index_of_lt {t : List opcode} {i : Nat} (h : i < t.length) :
    ∃ e, index t i = some e :=
  ⟨t[i], by simp [index, h]⟩

/-- An index at or beyond the length of a slice is out of range. -/
theorem index_of_le {t : List opcode} {i : Nat} (h : t.length ≤ i) :
    index t i = none := by
  simp [index, h]


/-- A property of the zero value and of every value written in a keyed slice
literal holds of every element of the slice. -/
theorem forall_mem_keyed {P : opcode → Prop} (kvs : List (Nat × opcode))
    (hz : P zeroOpcode) (hk : ∀ kv ∈ kvs, P kv.2) : ∀ e ∈ keyed kvs, P e := by
  intro e he
  simp only [keyed, List.mem_map] at he
  obtain ⟨i, -, rfl⟩ := he
  unfold keyedAt
  cases hf : kvs.find? (fun kv => kv.1 == i) with
  | none => exact hz
  | some kv => exact hk kv (List.mem_of_find?_eq_some hf)

/-- The length of the slice of a keyed slice literal. -/
theorem length_keyed (kvs : List (Nat × opcode)) : (keyed kvs).length = keyedLen kvs := by
  simp [keyed]

/-- A property that holds on each of the sixteen rows holds on the base table. -/
theorem forall_mem_opcodes (P : opcode → Prop)
    (h0 : ∀ e ∈ opcodes_0x, P e) (h1 : ∀ e ∈ opcodes_1x, P e)
    (h2 : ∀ e ∈ opcodes_2x, P e) (h3 : ∀ e ∈ opcodes_3x, P e)
    (h4 : ∀ e ∈ opcodes_4x, P e) (h5 : ∀ e ∈ opcodes_5x, P e)
    (h6 : ∀ e ∈ opcodes_6x, P e) (h7 : ∀ e ∈ opcodes_7x, P e)
    (h8 : ∀ e ∈ opcodes_8x, P e) (h9 : ∀ e ∈ opcodes_9x, P e)
    (ha : ∀ e ∈ opcodes_ax, P e) (hb : ∀ e ∈ opcodes_bx, P e)
    (hc : ∀ e ∈ opcodes_cx, P e) (hd : ∀ e ∈ opcodes_dx, P e)
    (he : ∀ e ∈ opcodes_ex, P e) (hf : ∀ e ∈ opcodes_fx, P e) :
    ∀ e ∈ opcodes, P e := by
  intro e hmem
  simp only [opcodes, List.mem_append] at hmem
  rcases hmem with ((((((((((((((h | h) | h) | h) | h) | h) | h) | h) | h) | h) | h) | h) | h) | h) | h) | h
  · exact h0 e h
  · exact h1 e h
  · exact h2 e h
  · exact h3 e h
  · exact h4 e h
  · exact h5 e h
  · exact h6 e h
  · exact h7 e h
  · exact h8 e h
  · exact h9 e h
  · exact ha e h
  · exact hb e h
  · exact hc e h
  · exact hd e h
  · exact he e h
  · exact hf e h

/-- The enumeration of the base table, row by row. -/
theorem enum_opcodes : opcodes.enum =
    opcodes_0x.enumFrom 0x00 ++ opcodes_1x.enumFrom 0x10 ++ opcodes_2x.enumFrom 0x20 ++
    opcodes_3x.enumFrom 0x30 ++ opcodes_4x.enumFrom 0x40 ++ opcodes_5x.enumFrom 0x50 ++
    opcodes_6x.enumFrom 0x60 ++ opcodes_7x.enumFrom 0x70 ++ opcodes_8x.enumFrom 0x80 ++
    opcodes_9x.enumFrom 0x90 ++ opcodes_ax.enumFrom 0xa0 ++ opcodes_bx.enumFrom 0xb0 ++
    opcodes_cx.enumFrom 0xc0 ++ opcodes_dx.enumFrom 0xd0 ++ opcodes_ex.enumFrom 0xe0 ++
    opcodes_fx.enumFrom 0xf0 := by
  have l0 : opcodes_0x.length = 16 := rfl
  have l1 : opcodes_1x.length = 16 := rfl
  have l2 : opcodes_2x.length = 16 := rfl
  have l3 : opcodes_3x.length = 16 := rfl
  have l4 : opcodes_4x.length = 16 := rfl
  have l5 : opcodes_5x.length = 16 := rfl
  have l6 : opcodes_6x.length = 16 := rfl
  have l7 : opcodes_7x.length = 16 := rfl
  have l8 : opcodes_8x.length = 16 := rfl
  have l9 : opcodes_9x.length = 16 := rfl
  have la : opcodes_ax.length = 16 := rfl
  have lb : opcodes_bx.length = 16 := rfl
  have lc : opcodes_cx.length = 16 := rfl
  have ld : opcodes_dx.length = 16 := rfl
  have le : opcodes_ex.length = 16 := rfl
  simp only [opcodes, List.enum, List.enumFrom_append, List.length_append,
    l0, l1, l2, l3, l4, l5, l6, l7, l8, l9, la, lb, lc, ld, le]

/-- A property of index and element that holds on each of the sixteen rows holds
wherever the base table yields an element. -/
theorem forall_index_opcodes (P : Nat → opcode → Prop)
    (h0 : ∀ p ∈ opcodes_0x.enumFrom 0x00, P p.1 p.2)
    (h1 : ∀ p ∈ opcodes_1x.enumFrom 0x10, P p.1 p.2)
    (h2 : ∀ p ∈ opcodes_2x.enumFrom 0x20, P p.1 p.2)
    (h3 : ∀ p ∈ opcodes_3x.enumFrom 0x30, P p.1 p.2)
    (h4 : ∀ p ∈ opcodes_4x.enumFrom 0x40, P p.1 p.2)
    (h5 : ∀ p ∈ opcodes_5x.enumFrom 0x50, P p.1 p.2)
    (h6 : ∀ p ∈ opcodes_6x.enumFrom 0x60, P p.1 p.2)
    (h7 : ∀ p ∈ opcodes_7x.enumFrom 0x70, P p.1 p.2)
    (h8 : ∀ p ∈ opcodes_8x.enumFrom 0x80, P p.1 p.2)
    (h9 : ∀ p ∈ opcodes_9x.enumFrom 0x90, P p.1 p.2)
    (ha : ∀ p ∈ opcodes_ax.enumFrom 0xa0, P p.1 p.2)
    (hb : ∀ p ∈ opcodes_bx.enumFrom 0xb0, P p.1 p.2)
    (hc : ∀ p ∈ opcodes_cx.enumFrom 0xc0, P p.1 p.2)
    (hd : ∀ p ∈ opcodes_dx.enumFrom 0xd0, P p.1 p.2)
    (he : ∀ p ∈ opcodes_ex.enumFrom 0xe0, P p.1 p.2)
    (hf : ∀ p ∈ opcodes_fx.enumFrom 0xf0, P p.1 p.2) :
    ∀ i e, index opcodes i = some e → P i e := by
  intro i e hi
  have hmem := index_mem_enum hi
  rw [enum_opcodes] at hmem
  simp only [List.mem_append] at hmem
  rcases hmem with ((((((((((((((h | h) | h) | h) | h) | h) | h) | h) | h) | h) | h) | h) | h) | h) | h) | h
  · exact h0 (i, e) h
  · exact h1 (i, e) h
  · exact h2 (i, e) h
  · exact h3 (i, e) h
  · exact h4 (i, e) h
  · exact h5 (i, e) h
  · exact h6 (i, e) h
  · exact h7 (i, e) h
  · exact h8 (i, e) h
  · exact h9 (i, e) h
  · exact ha (i, e) h
  · exact hb (i, e) h
  · exact hc (i, e) h
  · exact hd (i, e) h
  · exact he (i, e) h
  · exact hf (i, e) h

/-- A property that holds on each of the four secondary tables holds on every
element of every table of `secondaryTables`. -/
theorem forall_mem_secondary (P : opcode → Prop)
    (hcb : ∀ e ∈ opcodesCB, P e) (hed : ∀ e ∈ opcodesED, P e)
    (hdd : ∀ e ∈ opcodesDD, P e) (hfd : ∀ e ∈ opcodesFD, P e) :
    ∀ t ∈ secondaryTables, ∀ x ∈ t.2, P x := by
  intro t ht
  simp only [secondaryTables, List.mem_cons, List.mem_singleton, List.not_mem_nil, or_false] at ht
  rcases ht with rfl | rfl | rfl | rfl
  · exact hcb
  · exact hed
  · exact hdd
  · exact hfd

/-- The base table has 256 elements. -/
theorem length_opcodes : opcodes.length = 256 := by
  simp only [opcodes, List.length_append]
  rfl

/-- C1: the base table `opcodes` has exactly 256 elements, so the index
expression `opcodes[b]` yields an element for every byte value `b` in 0..255. -/
theorem opcodes_covers_every_byte (b : Nat) (h : b < 256) :
    opcodes.length = 256 ∧ ∃ e, index opcodes b = some e :=
  ⟨length_opcodes, index_of_lt (by rw [length_opcodes]; exact h)⟩

/-- Witness of C1 at the byte 0xff. -/
theorem opcodes_covers_every_byte_witness :
    0xff < 256 ∧ (opcodes.length = 256 ∧ ∃ e, index opcodes 0xff = some e) :=
  ⟨by decide, opcodes_covers_every_byte 0xff (by decide)⟩

/-- C2 (the code at the failing inputs): the keyed slice literals make `opcodesCB`
64, `opcodesED` 69 and `opcodesDD` and `opcodesFD` 230 elements long, not 256; the
index expressions `opcodesCB[0x40]`, `opcodesED[0x45]`, `opcodesDD[0xe6]` and
`opcodesFD[0xe6]`, and `[0xff]` on each of the four, are out of range instead of
yielding the zero value. -/
theorem secondary_tables_short :
    opcodesCB.length = 64 ∧ opcodesED.length = 69 ∧
    opcodesDD.length = 230 ∧ opcodesFD.length = 230 ∧
    index opcodesCB 0x40 = none ∧ index opcodesED 0x45 = none ∧
    index opcodesDD 0xe6 = none ∧ index opcodesFD 0xe6 = none ∧
    index opcodesCB 0xff = none ∧ index opcodesED 0xff = none ∧
    index opcodesDD 0xff = none ∧ index opcodesFD 0xff = none := by
  have hcb : opcodesCB.length = 64 := length_keyed _
  have hed : opcodesED.length = 69 := length_keyed _
  have hdd : opcodesDD.length = 230 := length_keyed _
  have hfd : opcodesFD.length = 230 := length_keyed _
  refine ⟨hcb, hed, hdd, hfd, ?_, ?_, ?_, ?_, ?_, ?_, ?_, ?_⟩ <;>
    apply index_of_le <;> simp only [hcb, hed, hdd, hfd] <;> decide

/-- C3: every element of the base table and of the four secondary tables is in
exactly one of the three states: defined, multi-byte sentinel, undefined
sentinel. -/
theorem entry_in_exactly_one_state (e : opcode) (h : e ∈ allEntries) :
    exactlyOne (isDefined e) (isMultiByteSentinel e) (isUndefined e) := by
  have base := forall_mem_opcodes
    (fun e => exactlyOne (isDefined e) (isMultiByteSentinel e) (isUndefined e))
    (by decide) (by decide) (by decide) (by decide) (by decide) (by decide) (by decide)
    (by decide) (by decide) (by decide) (by decide) (by decide) (by decide) (by decide)
    (by decide) (by decide)
  have sec := forall_mem_secondary
    (fun e => exactlyOne (isDefined e) (isMultiByteSentinel e) (isUndefined e))
    (forall_mem_keyed _ (by decide) (by decide)) (forall_mem_keyed _ (by decide) (by decide))
    (forall_mem_keyed _ (by decide) (by decide)) (forall_mem_keyed _ (by decide) (by decide))
  simp only [allEntries, List.mem_append] at h
  rcases h with (((h | h) | h) | h) | h
  · exact base e h
  · exact sec (0xcb, opcodesCB) (by simp [secondaryTables]) e h
  · exact sec (0xed, opcodesED) (by simp [secondaryTables]) e h
  · exact sec (0xdd, opcodesDD) (by simp [secondaryTables]) e h
  · exact sec (0xfd, opcodesFD) (by simp [secondaryTables]) e h

/-- Witness of C3 at the zero value `opcode{}`, which is the element `opcodes[0x10]`
among others. -/
theorem entry_in_exactly_one_state_witness :
    zeroOpcode ∈ allEntries ∧
    exactlyOne (isDefined zeroOpcode) (isMultiByteSentinel zeroOpcode) (isUndefined zeroOpcode) :=
  have hmem : zeroOpcode ∈ allEntries := by
    simp only [allEntries, opcodes, List.mem_append]
    exact Or.inl (Or.inl (Or.inl (Or.inl (Or.inl (Or.inl (Or.inl (Or.inl (Or.inl (Or.inl
      (Or.inl (Or.inl (Or.inl (Or.inl (Or.inl (Or.inl (Or.inl (Or.inl (Or.inr
        (by decide)))))))))))))))))))
  ⟨hmem, entry_in_exactly_one_state zeroOpcode hmem⟩

/-- C4: a base-table element has `multiByte` set exactly when its index is 0xcb,
0xdd, 0xed or 0xfd; such an element has no mnemonic, `noBytes` 0, `noCycles` 0 and
`src` and `dst` both `invalid`; and no element of a secondary table has
`multiByte` set. -/
theorem multiByte_exactly_at_the_four_bytes (i : Nat) (e : opcode)
    (h : index opcodes i = some e) :
    (e.multiByte = true ↔ i = 0xcb ∨ i = 0xdd ∨ i = 0xed ∨ i = 0xfd) ∧
    (e.multiByte = true →
      e.mnemonic = [] ∧ e.noBytes = 0 ∧ e.noCycles = 0 ∧
      e.src = mode.invalid ∧ e.dst = mode.invalid) ∧
    (∀ t ∈ secondaryTables, ∀ x ∈ t.2, x.multiByte = false) := by
  have key := forall_index_opcodes
    (fun i e =>
      (e.multiByte = true ↔ i = 0xcb ∨ i = 0xdd ∨ i = 0xed ∨ i = 0xfd) ∧
      (e.multiByte = true →
        e.mnemonic = [] ∧ e.noBytes = 0 ∧ e.noCycles = 0 ∧
        e.src = mode.invalid ∧ e.dst = mode.invalid))
    (by decide) (by decide) (by decide) (by decide) (by decide) (by decide) (by decide)
    (by decide) (by decide) (by decide) (by decide) (by decide) (by decide) (by decide)
    (by decide) (by decide)
  have sec := forall_mem_secondary (fun x => x.multiByte = false)
    (forall_mem_keyed _ (by decide) (by decide)) (forall_mem_keyed _ (by decide) (by decide))
    (forall_mem_keyed _ (by decide) (by decide)) (forall_mem_keyed _ (by decide) (by decide))
  exact ⟨(key i e h).1, (key i e h).2, sec⟩

/-- Witness of C4 at the index 0xcb. -/
theorem multiByte_exactly_at_the_four_bytes_witness :
    index opcodes 0xcb = some op_multiByte ∧
    ((op_multiByte.multiByte = true ↔ 0xcb = 0xcb ∨ 0xcb = 0xdd ∨ 0xcb = 0xed ∨ 0xcb = 0xfd) ∧
      (op_multiByte.multiByte = true →
        op_multiByte.mnemonic = [] ∧ op_multiByte.noBytes = 0 ∧ op_multiByte.noCycles = 0 ∧
        op_multiByte.src = mode.invalid ∧ op_multiByte.dst = mode.invalid) ∧
      (∀ t ∈ secondaryTables, ∀ x ∈ t.2, x.multiByte = false)) :=
  ⟨by decide, multiByte_exactly_at_the_four_bytes 0xcb op_multiByte (by decide)⟩

/-- C5 as stated fails: the base-table index 0x10 is none of 0xcb, 0xdd, 0xed, 0xfd
and its element has an empty mnemonic list. -/
theorem base_table_not_all_defined :
    ¬ (∀ i e, index opcodes i = some e →
        i ≠ 0xcb → i ≠ 0xdd → i ≠ 0xed → i ≠ 0xfd → e.mnemonic ≠ []) := by
  intro hall
  exact hall 0x10 zeroOpcode (by decide) (by decide) (by decide) (by decide) (by decide) rfl

/-- C5 amended: a base-table element whose index is none of the four bytes 0xcb,
0xdd, 0xed, 0xfd and none of the twenty indexes of `emptySlots` is a defined
instruction (its mnemonic list is non-empty), and the element at each index of
`emptySlots` is the zero value `opcode{}`. -/
theorem base_table_defined_off_empty_slots (i : Nat) (e : opcode)
    (h : index opcodes i = some e) :
    (i ∈ emptySlots → e = zeroOpcode) ∧
    (i ≠ 0xcb → i ≠ 0xdd → i ≠ 0xed → i ≠ 0xfd → i ∉ emptySlots →
      e.mnemonic ≠ [] ∧ isDefined e) :=
  forall_index_opcodes
    (fun i e =>
      (i ∈ emptySlots → e = zeroOpcode) ∧
      (i ≠ 0xcb → i ≠ 0xdd → i ≠ 0xed → i ≠ 0xfd → i ∉ emptySlots →
        e.mnemonic ≠ [] ∧ isDefined e))
    (by decide) (by decide) (by decide) (by decide) (by decide) (by decide) (by decide)
    (by decide) (by decide) (by decide) (by decide) (by decide) (by decide) (by decide)
    (by decide) (by decide) i e h

/-- Witness of C5 amended at the index 0x76, the entry of `halt`. -/
theorem base_table_defined_off_empty_slots_witness :
    index opcodes 0x76 = some op_halt ∧
    ((0x76 ∈ emptySlots → op_halt = zeroOpcode) ∧
      (0x76 ≠ 0xcb → 0x76 ≠ 0xdd → 0x76 ≠ 0xed → 0x76 ≠ 0xfd → 0x76 ∉ emptySlots →
        op_halt.mnemonic ≠ [] ∧ isDefined op_halt)) :=
  ⟨by decide, base_table_defined_off_empty_slots 0x76 op_halt (by decide)⟩

/-- C6: the base-table element at index 0x10 is the zero value `opcode{}` (no
mnemonic, `multiByte` false, `noBytes` 0), and the decode of the raw byte 0x10 is
a decode error, not an instruction. -/
theorem byte_0x10_is_undefined :
    index opcodes 0x10 = some zeroOpcode ∧
    zeroOpcode.mnemonic = [] ∧ zeroOpcode.multiByte = false ∧ zeroOpcode.noBytes = 0 ∧
    decodeByte 0x10 = some Decoded.decodeError ∧
    decodeByte 0x10 ≠ some Decoded.instruction ∧
    decodeAt [0x10] 0 = none := by
  decide

/-- C7: a defined base-table entry has `noBytes` equal to 1 plus the operand
bytes that its addressing modes imply, and not both of `src` and `dst` are modes
that read operand bytes. -/
theorem noBytes_is_one_plus_operand_bytes (e : opcode) (h : e ∈ opcodes)
    (hd : isDefined e) :
    e.noBytes = 1 + operandBytes e ∧
    ¬ (readsOperandBytes e.src ∧ readsOperandBytes e.dst) :=
  forall_mem_opcodes
    (fun e => isDefined e →
      e.noBytes = 1 + operandBytes e ∧
      ¬ (readsOperandBytes e.src ∧ readsOperandBytes e.dst))
    (by decide) (by decide) (by decide) (by decide) (by decide) (by decide) (by decide)
    (by decide) (by decide) (by decide) (by decide) (by decide) (by decide) (by decide)
    (by decide) (by decide) e h hd

/-- Witness of C7 at the entry of `ld de,nn` (index 0x11): three bytes, two of
them the operand. -/
theorem noBytes_is_one_plus_operand_bytes_witness :
    op_ld_de_nn ∈ opcodes ∧ isDefined op_ld_de_nn ∧
    (op_ld_de_nn.noBytes = 1 + operandBytes op_ld_de_nn ∧
      ¬ (readsOperandBytes op_ld_de_nn.src ∧ readsOperandBytes op_ld_de_nn.dst)) :=
  have hmem : op_ld_de_nn ∈ opcodes := by
    simp only [opcodes, List.mem_append]
    exact Or.inl (Or.inl (Or.inl (Or.inl (Or.inl (Or.inl (Or.inl (Or.inl (Or.inl (Or.inl
      (Or.inl (Or.inl (Or.inl (Or.inl (Or.inr (by decide)))))))))))))))
  ⟨hmem, by decide, noBytes_is_one_plus_operand_bytes op_ld_de_nn hmem (by decide)⟩

/-- C8: for a defined entry of the table that a byte 0xcb, 0xed, 0xdd or 0xfd
selects, the length of the base-table element at that byte plus the length of
the entry is exactly 2: the base-table element contributes 0 and the entry
alone counts both bytes. -/
theorem prefixed_length_is_two (pb : Nat) (t : List opcode) (p e : opcode)
    (ht : (pb, t) ∈ secondaryTables) (hp : index opcodes pb = some p)
    (he : e ∈ t) (hd : isDefined e) :
    p.noBytes + e.noBytes = 2 ∧ p.noBytes = 0 ∧ e.noBytes = 2 := by
  have hbase := forall_index_opcodes
    (fun i x => (i = 0xcb ∨ i = 0xed ∨ i = 0xdd ∨ i = 0xfd) → x.noBytes = 0)
    (by decide) (by decide) (by decide) (by decide) (by decide) (by decide) (by decide)
    (by decide) (by decide) (by decide) (by decide) (by decide) (by decide) (by decide)
    (by decide) (by decide) pb p hp
  have hsec := forall_mem_secondary (fun x => isDefined x → x.noBytes = 2)
    (forall_mem_keyed _ (by decide) (by decide)) (forall_mem_keyed _ (by decide) (by decide))
    (forall_mem_keyed _ (by decide) (by decide)) (forall_mem_keyed _ (by decide) (by decide))
    (pb, t) ht e he hd
  have hpb : pb = 0xcb ∨ pb = 0xed ∨ pb = 0xdd ∨ pb = 0xfd := by
    simp only [secondaryTables, List.mem_cons, List.mem_singleton, List.not_mem_nil, or_false,
      Prod.mk.injEq] at ht
    rcases ht with h | h | h | h
    · exact Or.inl h.1
    · exact Or.inr (Or.inl h.1)
    · exact Or.inr (Or.inr (Or.inl h.1))
    · exact Or.inr (Or.inr (Or.inr h.1))
  have h0 := hbase hpb
  exact ⟨by rw [h0, hsec], h0, hsec⟩

/-- Witness of C8 at the byte 0xcb and the entry of `sla a` (key 0x27 of
`opcodesCB`). -/
theorem prefixed_length_is_two_witness :
    (0xcb, opcodesCB) ∈ secondaryTables ∧ index opcodes 0xcb = some op_multiByte ∧
    op_sla_a ∈ opcodesCB ∧ isDefined op_sla_a ∧
    (op_multiByte.noBytes + op_sla_a.noBytes = 2 ∧ op_multiByte.noBytes = 0 ∧
      op_sla_a.noBytes = 2) :=
  ⟨by decide, by decide, by decide, by decide,
    prefixed_length_is_two 0xcb opcodesCB op_multiByte op_sla_a
      (by decide) (by decide) (by decide) (by decide)⟩

/-- C9: with both flags empty `_main` builds the boot image 31 00 ee c3 00 10 and
the RAM image 76. Decoded from offset 0 with the lengths of the base table, the
boot image is exactly two instructions that cover its six bytes: the entry 0x31
(`ld`, `dst` the register `sp`, `src` `immediateExtended`, 3 bytes) with operand
0xee00, then the entry 0xc3 (`jp`, `dst` `immediateExtended`, 3 bytes) with
operand 0x1000. The byte at address 0x1000, offset 0 of the RAM device, is 0x76,
whose entry is `halt` (1 byte), and 0xee00 lies inside the RAM mapping. -/
theorem default_images_decode (readFile : String → Option (List Nat)) :
    ∃ boot ram,
      mainImages "" "" readFile = some (boot, ram) ∧
      boot = [0x31, 0x00, 0xee, 0xc3, 0x00, 0x10] ∧ ram = [0x76] ∧
      sweep boot boot.length 0 =
        some [⟨op_ld_sp_nn, [0x00, 0xee]⟩, ⟨op_jp_nn, [0x00, 0x10]⟩] ∧
      op_ld_sp_nn.noBytes + op_jp_nn.noBytes = boot.length ∧
      index opcodes 0x31 = some op_ld_sp_nn ∧
      textAt op_ld_sp_nn.mnemonic dialectZ80 = some "ld" ∧
      op_ld_sp_nn.dst = mode.register ∧ textAt op_ld_sp_nn.dstR dialectZ80 = some "sp" ∧
      op_ld_sp_nn.src = mode.immediateExtended ∧ op_ld_sp_nn.noBytes = 3 ∧
      le16 [0x00, 0xee] = some 0xee00 ∧
      index opcodes 0xc3 = some op_jp_nn ∧
      textAt op_jp_nn.mnemonic dialectZ80 = some "jp" ∧
      op_jp_nn.dst = mode.immediateExtended ∧ op_jp_nn.noBytes = 3 ∧
      le16 [0x00, 0x10] = some 0x1000 ∧
      busRead (devices boot ram) 0x1000 = some 0x76 ∧
      (∃ d ∈ devices boot ram,
        d.Typ = DeviceType.DeviceRAM ∧ d.Start = 0x1000 ∧ d.Image[0]? = some 0x76 ∧
        d.Start ≤ 0xee00 ∧ 0xee00 < d.Start + d.Size) ∧
      index opcodes 0x76 = some op_halt ∧
      textAt op_halt.mnemonic dialectZ80 = some "halt" ∧ op_halt.noBytes = 1 := by
  refine ⟨[0x31, 0x00, 0xee, 0xc3, 0x00, 0x10], [0x76], rfl, rfl, rfl, ?_⟩
  decide

/-- C10 (the code at the failing inputs): the defined entry of `ex af,af'` at
index 0x08 has one-element `mnemonic`, `srcR` and `dstR` lists, so the 8080 form
of each is out of range; the entries of `add a,b` (0x80) and `adc a,n` (0xce),
both with an 8080 mnemonic, have a one-element `srcR` and `dstR` list, where
the entries next to them (`add a,n` at 0xc6) have two elements; and the defined
entries of `opcodesDD`, such as `inc ix` at 0x23, have one-element lists. -/
theorem text_lists_with_one_form :
    index opcodes 0x08 = some op_ex_af ∧ isDefined op_ex_af ∧
    op_ex_af.mnemonic.length = 1 ∧ textAt op_ex_af.mnemonic dialect8080 = none ∧
    op_ex_af.srcR.length = 1 ∧ textAt op_ex_af.srcR dialect8080 = none ∧
    op_ex_af.dstR.length = 1 ∧ textAt op_ex_af.dstR dialect8080 = none ∧
    index opcodes 0x80 = some op_add_a_b ∧ isDefined op_add_a_b ∧
    textAt op_add_a_b.mnemonic dialect8080 = some "add" ∧
    op_add_a_b.srcR.length = 1 ∧ textAt op_add_a_b.srcR dialect8080 = none ∧
    index opcodes 0xce = some op_adc_a_n ∧ isDefined op_adc_a_n ∧
    textAt op_adc_a_n.mnemonic dialect8080 = some "aci" ∧
    op_adc_a_n.dstR.length = 1 ∧ textAt op_adc_a_n.dstR dialect8080 = none ∧
    index opcodes 0xc6 = some op_add_a_n ∧ textAt op_add_a_n.dstR dialect8080 = some "" ∧
    index opcodesDD 0x23 = some op_inc_ix ∧ isDefined op_inc_ix ∧
    op_inc_ix.mnemonic.length = 1 ∧ textAt op_inc_ix.mnemonic dialect8080 = none ∧
    op_inc_ix.dstR.length = 1 ∧ textAt op_inc_ix.dstR dialect8080 = none := by
  decide

/-- The element that the base table yields at an index is an element of the
tables. -/
theorem mem_allEntries_of_index {i : Nat} {e : opcode} (h : index opcodes i = some e) :
    e ∈ allEntries := by
  have hmem : e ∈ opcodes := List.getElem?_mem h
  simp only [allEntries, List.mem_append]
  exact Or.inl (Or.inl (Or.inl (Or.inl hmem)))

/-- C11: every element of the five tables that has a non-empty 8080 mnemonic
(element 1 of the mnemonic list) also has a non-empty Z80 mnemonic (element 0),
and no element of the tables `opcodesCB`, `opcodesED`, `opcodesDD`, `opcodesFD` has
a non-empty 8080 mnemonic. -/
theorem mnemonic_8080_implies_z80 (e : opcode) (h : e ∈ allEntries) :
    (has8080Mnemonic e → hasZ80Mnemonic e) ∧
    (∀ t ∈ secondaryTables, ∀ x ∈ t.2, ¬ has8080Mnemonic x) := by
  have base := forall_mem_opcodes (fun e => has8080Mnemonic e → hasZ80Mnemonic e)
    (by decide) (by decide) (by decide) (by decide) (by decide) (by decide) (by decide)
    (by decide) (by decide) (by decide) (by decide) (by decide) (by decide) (by decide)
    (by decide) (by decide)
  have sec := forall_mem_secondary (fun x => ¬ has8080Mnemonic x)
    (forall_mem_keyed _ (by decide) (by decide)) (forall_mem_keyed _ (by decide) (by decide))
    (forall_mem_keyed _ (by decide) (by decide)) (forall_mem_keyed _ (by decide) (by decide))
  refine ⟨?_, sec⟩
  simp only [allEntries, List.mem_append] at h
  rcases h with (((h | h) | h) | h) | h
  · exact base e h
  · exact fun h8 => absurd h8 (sec (0xcb, opcodesCB) (by simp [secondaryTables]) e h)
  · exact fun h8 => absurd h8 (sec (0xed, opcodesED) (by simp [secondaryTables]) e h)
  · exact fun h8 => absurd h8 (sec (0xdd, opcodesDD) (by simp [secondaryTables]) e h)
  · exact fun h8 => absurd h8 (sec (0xfd, opcodesFD) (by simp [secondaryTables]) e h)

/-- Witness of C11 at the entry of `halt` (index 0x76), 8080 mnemonic `hlt`. -/
theorem mnemonic_8080_implies_z80_witness :
    op_halt ∈ allEntries ∧ has8080Mnemonic op_halt ∧
    ((has8080Mnemonic op_halt → hasZ80Mnemonic op_halt) ∧
      (∀ t ∈ secondaryTables, ∀ x ∈ t.2, ¬ has8080Mnemonic x)) :=
  have hmem : op_halt ∈ allEntries :=
    mem_allEntries_of_index (show index opcodes 0x76 = some op_halt by decide)
  ⟨hmem, by decide, mnemonic_8080_implies_z80 op_halt hmem⟩

/-- C12 (the code at the failing input): the defined entry of `adc a,(hl)` at
index 0x8e has `src` mode `register` with the Z80 hint "(hl)", which is not the
name of a register or register pair; the entry of `sub a,(hl)` at index 0x96
writes the same operand as `registerIndirect` with the hint "hl". -/
theorem adc_a_hl_hint_is_no_register :
    index opcodes 0x8e = some op_adc_a_hl ∧ isDefined op_adc_a_hl ∧
    op_adc_a_hl.src = mode.register ∧ textAt op_adc_a_hl.srcR dialectZ80 = some "(hl)" ∧
    "(hl)" ∉ registerNames ∧ ¬ namesRegister op_adc_a_hl.srcR ∧
    ¬ registerOperandNamed op_adc_a_hl.src op_adc_a_hl.srcR ∧
    index opcodes 0x96 = some op_sub_a_hl ∧
    op_sub_a_hl.src = mode.registerIndirect ∧ textAt op_sub_a_hl.srcR dialectZ80 = some "hl" ∧
    registerOperandNamed op_sub_a_hl.src op_sub_a_hl.srcR := by
  decide

/-- C13: a base-table element whose `dst` mode is `condition` has a Z80 hint among
nz, z, nc, c, po, pe, p, m, and at an index from 0xc0 on the hint is the condition
that bits 5..3 of the index select; no element of a secondary table has `dst`
mode `condition`; and each of the eight indexes 0xc2 + 8k (k = 0..7) holds a
defined entry `jp` with `dst` mode `condition` and `src` mode
`immediateExtended`. -/
theorem condition_hint_follows_opcode_bits (i : Nat) (e : opcode)
    (h : index opcodes i = some e) (hc : e.dst = mode.condition) :
    (∃ c ∈ conditionNames, textAt e.dstR dialectZ80 = some c) ∧
    (0xc0 ≤ i → textAt e.dstR dialectZ80 = conditionOf i) ∧
    (∀ t ∈ secondaryTables, ∀ x ∈ t.2, x.dst ≠ mode.condition) ∧
    (∀ k, k < 8 → ∃ j, index opcodes (0xc2 + 8 * k) = some j ∧ isDefined j ∧
      textAt j.mnemonic dialectZ80 = some "jp" ∧ j.dst = mode.condition ∧
      j.src = mode.immediateExtended) := by
  have key := forall_index_opcodes
    (fun i e => e.dst = mode.condition →
      (∃ c ∈ conditionNames, textAt e.dstR dialectZ80 = some c) ∧
      (0xc0 ≤ i → textAt e.dstR dialectZ80 = conditionOf i))
    (by decide) (by decide) (by decide) (by decide) (by decide) (by decide) (by decide)
    (by decide) (by decide) (by decide) (by decide) (by decide) (by decide) (by decide)
    (by decide) (by decide) i e h hc
  have sec := forall_mem_secondary (fun x => x.dst ≠ mode.condition)
    (forall_mem_keyed _ (by decide) (by decide)) (forall_mem_keyed _ (by decide) (by decide))
    (forall_mem_keyed _ (by decide) (by decide)) (forall_mem_keyed _ (by decide) (by decide))
  have jumps : ∀ k, k < 8 →
      ((index opcodes (0xc2 + 8 * k)).all fun j => decide (isDefined j ∧
        textAt j.mnemonic dialectZ80 = some "jp" ∧ j.dst = mode.condition ∧
        j.src = mode.immediateExtended)) = true ∧
      (index opcodes (0xc2 + 8 * k)).isSome = true := by
    decide
  refine ⟨key.1, key.2, sec, ?_⟩
  intro k hk
  obtain ⟨hall, hsome⟩ := jumps k hk
  obtain ⟨j, hj⟩ := Option.isSome_iff_exists.1 hsome
  rw [hj] at hall
  exact ⟨j, hj, of_decide_eq_true hall⟩

/-- Witness of C13 at the index 0xfa, the entry of `jp m,nn`. -/
theorem condition_hint_follows_opcode_bits_witness :
    index opcodes 0xfa = some op_jp_m ∧ op_jp_m.dst = mode.condition ∧
    ((∃ c ∈ conditionNames, textAt op_jp_m.dstR dialectZ80 = some c) ∧
      (0xc0 ≤ 0xfa → textAt op_jp_m.dstR dialectZ80 = conditionOf 0xfa) ∧
      (∀ t ∈ secondaryTables, ∀ x ∈ t.2, x.dst ≠ mode.condition) ∧
      (∀ k, k < 8 → ∃ j, index opcodes (0xc2 + 8 * k) = some j ∧ isDefined j ∧
        textAt j.mnemonic dialectZ80 = some "jp" ∧ j.dst = mode.condition ∧
        j.src = mode.immediateExtended)) :=
  ⟨by decide, by decide,
    condition_hint_follows_opcode_bits 0xfa op_jp_m (by decide) (by decide)⟩

/-- C14: a base-table element uses the mode `implied` (as `src` or `dst`) exactly
when its index is one of 0xc7 + 8k (k = 0..7); such an element has the Z80
mnemonic `rst`, `noBytes` 1, `noCycles` 11, `dst` mode `implied` and as Z80 `dst`
hint "$" with the two lowercase hexadecimal digits of `index & 0x38`; and no
element of a secondary table uses the mode `implied`. -/
theorem implied_exactly_at_restarts (i : Nat) (e : opcode)
    (h : index opcodes i = some e) :
    ((e.src = mode.implied ∨ e.dst = mode.implied) ↔ i ∈ restartOpcodes) ∧
    (i ∈ restartOpcodes →
      textAt e.mnemonic dialectZ80 = some "rst" ∧ e.noBytes = 1 ∧ e.noCycles = 11 ∧
      e.dst = mode.implied ∧ textAt e.dstR dialectZ80 = some (restartHint i)) ∧
    (∀ t ∈ secondaryTables, ∀ x ∈ t.2, x.src ≠ mode.implied ∧ x.dst ≠ mode.implied) := by
  have key := forall_index_opcodes
    (fun i e =>
      ((e.src = mode.implied ∨ e.dst = mode.implied) ↔ i ∈ restartOpcodes) ∧
      (i ∈ restartOpcodes →
        textAt e.mnemonic dialectZ80 = some "rst" ∧ e.noBytes = 1 ∧ e.noCycles = 11 ∧
        e.dst = mode.implied ∧ textAt e.dstR dialectZ80 = some (restartHint i)))
    (by decide) (by decide) (by decide) (by decide) (by decide) (by decide) (by decide)
    (by decide) (by decide) (by decide) (by decide) (by decide) (by decide) (by decide)
    (by decide) (by decide) i e h
  have sec := forall_mem_secondary (fun x => x.src ≠ mode.implied ∧ x.dst ≠ mode.implied)
    (forall_mem_keyed _ (by decide) (by decide)) (forall_mem_keyed _ (by decide) (by decide))
    (forall_mem_keyed _ (by decide) (by decide)) (forall_mem_keyed _ (by decide) (by decide))
  exact ⟨key.1, key.2, sec⟩

/-- Witness of C14 at the index 0xff, the entry of `rst $38`. -/
theorem implied_exactly_at_restarts_witness :
    index opcodes 0xff = some op_rst_38 ∧
    (((op_rst_38.src = mode.implied ∨ op_rst_38.dst = mode.implied) ↔ 0xff ∈ restartOpcodes) ∧
      (0xff ∈ restartOpcodes →
        textAt op_rst_38.mnemonic dialectZ80 = some "rst" ∧ op_rst_38.noBytes = 1 ∧
        op_rst_38.noCycles = 11 ∧ op_rst_38.dst = mode.implied ∧
        textAt op_rst_38.dstR dialectZ80 = some (restartHint 0xff)) ∧
      (∀ t ∈ secondaryTables, ∀ x ∈ t.2, x.src ≠ mode.implied ∧ x.dst ≠ mode.implied)) :=
  ⟨by decide, implied_exactly_at_restarts 0xff op_rst_38 (by decide)⟩

/-- C15 (the code at the failing input): an entry carries the one cycle cost
`noCycles`. The entry of `jr z,d` (0x28) has the cost 12 of the unconditional `jr`
(0x18); the entries of `ret nz` (0xc0) and `call nz,nn` (0xc4) have 5 and 10 where
the unconditional `ret` (0xc9) and `call nn` (0xcd) have 10 and 17; and the entries
of `call nz,nn` and `jp nz,nn` (0xc2) differ in the mnemonic only, so that no
second cost of either is in the tables. -/
theorem conditional_entries_carry_one_cost :
    index opcodes 0x28 = some op_jr_z ∧ op_jr_z.dst = mode.condition ∧
    op_jr_z.noCycles = 12 ∧
    (index opcodes 0x18).map (fun e => e.noCycles) = some 12 ∧
    index opcodes 0xc0 = some op_ret_nz ∧ op_ret_nz.dst = mode.condition ∧
    op_ret_nz.noCycles = 5 ∧
    index opcodes 0xc9 = some op_ret ∧ op_ret.noCycles = 10 ∧
    index opcodes 0xc4 = some op_call_nz ∧ op_call_nz.dst = mode.condition ∧
    op_call_nz.noCycles = 10 ∧
    index opcodes 0xcd = some op_call_nn ∧ op_call_nn.noCycles = 17 ∧
    index opcodes 0xc2 = some op_jp_nz ∧ op_jp_nz.dst = mode.condition ∧
    op_jp_nz.noCycles = 10 ∧
    { op_call_nz with mnemonic := op_jp_nz.mnemonic } = op_jp_nz := by
  decide

/-- The three devices of `_main`. -/
theorem mem_devices {boot ram : List Nat} {d : Device} (h : d ∈ devices boot ram) :
    d = { Name := "Boot ROM", Start := 0x0000, Size := 0x1000, Typ := DeviceType.DeviceROM, Image := boot } ∨
    d = { Name := "working memory", Start := 0x1000, Size := 0xe000, Typ := DeviceType.DeviceRAM, Image := ram } ∨
    d = { Name := "serial console", Start := 0x02, Size := 0x02, Typ := DeviceType.DeviceSerialConsole } := by
  simpa only [devices, List.mem_cons, List.mem_singleton, List.not_mem_nil, or_false] using h

/-- A memory read at an address that no memory device covers is unmapped. -/
theorem busRead_eq_none {ds : List Device} {a : Nat}
    (h : ∀ d ∈ ds, isMemory d → ¬ covers d a) : busRead ds a = none := by
  have hfind : ds.find? (fun d =>
      d.Typ != DeviceType.DeviceSerialConsole && decide (d.Start ≤ a) &&
        decide (a < d.Start + d.Size)) = none := by
    apply List.find?_eq_none.2
    intro d hd hp
    simp only [Bool.and_eq_true, bne_iff_ne, ne_eq, decide_eq_true_eq] at hp
    have hm : isMemory d := by
      cases hT : d.Typ
      · exact Or.inl hT
      · exact Or.inr hT
      · exact absurd hT hp.1.1
    exact h d hd hm ⟨hp.1.2, hp.2⟩
  unfold busRead
  rw [hfind]

/-- No memory device of `_main` covers the address 0xf000 or the address 0xffff. -/
theorem no_memory_above_0xefff (boot ram : List Nat) :
    ∀ d ∈ devices boot ram, isMemory d → ¬ covers d 0xf000 ∧ ¬ covers d 0xffff := by
  intro d hd hmem
  rcases mem_devices hd with rfl | rfl | rfl
  · constructor <;> (dsimp only [covers]; omega)
  · constructor <;> (dsimp only [covers]; omega)
  · rcases hmem with h | h <;> cases h

/-- C16 (the code at the failing input): the working-memory device of `_main`
has `Start` 0x1000 and `Size` 0xe000, so its last address is 0xefff and not 0xffff;
no memory device of the list covers the address 0xf000 or the address 0xffff,
and a memory read there is unmapped. -/
theorem ram_ends_at_0xefff (boot ram : List Nat) :
    (devices boot ram)[1]? = some
      { Name := "working memory", Start := 0x1000, Size := 0xe000,
        Typ := DeviceType.DeviceRAM, Image := ram } ∧
    (∀ d ∈ devices boot ram, d.Typ = DeviceType.DeviceRAM →
      d.Start = 0x1000 ∧ d.Start + d.Size - 1 = 0xefff ∧ covers d 0xefff ∧
      ¬ covers d 0xf000 ∧ ¬ covers d 0xffff) ∧
    (∀ d ∈ devices boot ram, isMemory d → ¬ covers d 0xf000 ∧ ¬ covers d 0xffff) ∧
    busRead (devices boot ram) 0xf000 = none ∧ busRead (devices boot ram) 0xffff = none := by
  refine ⟨rfl, ?_, no_memory_above_0xefff boot ram, ?_, ?_⟩
  · intro d hd hram
    rcases mem_devices hd with rfl | rfl | rfl
    · cases hram
    · refine ⟨rfl, ?_, ?_, ?_, ?_⟩
      · show (0x1000 + 0xe000 - 1 : Nat) = 0xefff
        rfl
      · dsimp only [covers]; omega
      · dsimp only [covers]; omega
      · dsimp only [covers]; omega
    · cases hram
  · exact busRead_eq_none (fun d hd hm => (no_memory_above_0xefff boot ram d hd hm).1)
  · exact busRead_eq_none (fun d hd hm => (no_memory_above_0xefff boot ram d hd hm).2)

/-- C17 as stated fails: the serial console device of `_main` does not cover the
port 0x00. -/
theorem console_not_at_ports_0_and_1 :
    ¬ (∀ (boot ram : List Nat) (d : Device), d ∈ devices boot ram →
        d.Typ = DeviceType.DeviceSerialConsole → ∀ a, covers d a ↔ (a = 0x00 ∨ a = 0x01)) := by
  intro hall
  have h0 := (hall [] []
    { Name := "serial console", Start := 0x02, Size := 0x02, Typ := DeviceType.DeviceSerialConsole }
    (by decide) rfl 0x00).2 (Or.inl rfl)
  exact absurd h0 (by decide)

/-- C17 amended: in the device list of `_main` the serial console device has
`Start` 0x02 and `Size` 0x02 and so occupies exactly the two I/O ports 0x02 and
0x03 (the source comments them as data and UART status). -/
theorem console_at_ports_2_and_3 (boot ram : List Nat) (d : Device) (a : Nat)
    (hd : d ∈ devices boot ram) (ht : d.Typ = DeviceType.DeviceSerialConsole) :
    d.Start = 0x02 ∧ d.Size = 0x02 ∧ (covers d a ↔ (a = 0x02 ∨ a = 0x03)) := by
  rcases mem_devices hd with rfl | rfl | rfl
  · cases ht
  · cases ht
  · refine ⟨rfl, rfl, ?_⟩
    dsimp only [covers]
    omega

/-- Witness of C17 amended at the console device and the port 0x03. -/
theorem console_at_ports_2_and_3_witness :
    ({ Name := "serial console", Start := 0x02, Size := 0x02, Typ := DeviceType.DeviceSerialConsole } : Device) ∈ devices [] [] ∧
    (covers { Name := "serial console", Start := 0x02, Size := 0x02, Typ := DeviceType.DeviceSerialConsole } 0x03 ↔
      (0x03 = 0x02 ∨ 0x03 = 0x03)) :=
  ⟨by decide,
    (console_at_ports_2_and_3 [] []
      { Name := "serial console", Start := 0x02, Size := 0x02, Typ := DeviceType.DeviceSerialConsole }
      0x03 (by decide) rfl).2.2⟩

/-- C18: with both flags empty the device list of `_main` meets the construction
preconditions: every device has a non-zero size, `Start + Size` at most 0x10000
and an image no longer than its size (6 bytes in the ROM of size 0x1000, 1 byte in
the RAM of size 0xe000), and the memory devices are the ROM and then the RAM, in
ascending order of `Start` and with disjoint address ranges. -/
theorem default_devices_meet_preconditions (readFile : String → Option (List Nat)) :
    ∃ boot ram,
      mainImages "" "" readFile = some (boot, ram) ∧
      (∀ d ∈ devices boot ram,
        d.Size ≠ 0 ∧ d.Start + d.Size ≤ 0x10000 ∧ d.Image.length ≤ d.Size) ∧
      ∃ rom wm,
        (devices boot ram).filter (fun d => decide (isMemory d)) = [rom, wm] ∧
        rom.Typ = DeviceType.DeviceROM ∧ rom.Image.length = 6 ∧ rom.Size = 0x1000 ∧
        wm.Typ = DeviceType.DeviceRAM ∧ wm.Image.length = 1 ∧ wm.Size = 0xe000 ∧
        rom.Start < wm.Start ∧ rom.Start + rom.Size ≤ wm.Start ∧
        ∀ a, ¬ (covers rom a ∧ covers wm a) := by
  refine ⟨[0x31, 0x00, 0xee, 0xc3, 0x00, 0x10], [0x76], rfl, by decide,
    { Name := "Boot ROM", Start := 0x0000, Size := 0x1000, Typ := DeviceType.DeviceROM,
      Image := [0x31, 0x00, 0xee, 0xc3, 0x00, 0x10] },
    { Name := "working memory", Start := 0x1000, Size := 0xe000, Typ := DeviceType.DeviceRAM,
      Image := [0x76] },
    by decide, rfl, rfl, rfl, rfl, rfl, rfl, by decide, by decide, ?_⟩
  intro a
  dsimp only [covers]
  omega

/-- The loop over the trace, from index `i` on, prints the formatted pairs of
trace line and register text when there is a register text for each index. -/
theorem printTrace_eq_zipWith (registers : List String) :
    ∀ (trace : List String) (i : Nat), i + trace.length ≤ registers.length →
      printTrace registers i trace =
        some (List.zipWith formatLine trace (registers.drop i)) := by
  intro trace
  induction trace with
  | nil => intro i _; simp [printTrace]
  | cons line rest ih =>
    intro i hi
    have hlt : i < registers.length := by
      simp only [List.length_cons] at hi
      omega
    have hrest := ih (i + 1) (by simp only [List.length_cons] at hi; omega)
    rw [List.drop_eq_getElem_cons hlt]
    simp only [printTrace, List.getElem?_eq_getElem hlt, hrest, Option.map_some',
      List.zipWith_cons_cons]

/-- The loop over the trace panics when a trace line has no register text. -/
theorem printTrace_eq_none (registers : List String) :
    ∀ (trace : List String) (i : Nat), i ≤ registers.length →
      registers.length < i + trace.length → printTrace registers i trace = none := by
  intro trace
  induction trace with
  | nil => intro i hle hi; simp only [List.length_nil] at hi; omega
  | cons line rest ih =>
    intro i hle hi
    simp only [List.length_cons] at hi
    by_cases hlt : i < registers.length
    · have hrest := ih (i + 1) (by omega) (by omega)
      simp only [printTrace, List.getElem?_eq_getElem hlt, hrest, Option.map_none']
    · have hnone : registers[i]? = none := List.getElem?_eq_none (by omega)
      simp only [printTrace, hnone]

/-- C19 as stated fails: for the result of `cpu.Trace` with the trace lines "nop"
and "halt", the one register text "pc: $0001" and the error `z80.ErrHalt`, `_main`
panics at the index expression `registers[1]`: it does not reach the check of
`err` and returns nothing. -/
theorem halt_result_with_short_registers_panics :
    ¬ (∀ (haltText : String) (trace registers : List String) (err : Option TraceError),
        ∃ out, mainAfterTrace haltText trace registers err = some out ∧
          (out.errOut ≠ none ↔ (err ≠ none ∧ err ≠ some TraceError.ErrHalt)) ∧
          (err = some TraceError.ErrHalt → out.ret = none)) := by
  intro hall
  obtain ⟨out, hout, -⟩ :=
    hall "halt" ["nop", "halt"] ["pc: $0001"] (some TraceError.ErrHalt)
  have hnone :
      mainAfterTrace "halt" ["nop", "halt"] ["pc: $0001"] (some TraceError.ErrHalt) = none := by
    decide
  rw [hnone] at hout
  cases hout

/-- C19 amended: for a result of `cpu.Trace` with a register text for every trace
line, `_main` runs to its end: it writes to stderr every trace line, padded with
blanks to 25 characters and followed by its register text and a newline; it
writes the error exactly when `err` is not nil and not `z80.ErrHalt`, and what it
writes then is the text of `err`; and it returns nil, in particular when `err` is
`z80.ErrHalt`, in which case no error is written. -/
theorem halt_is_clean_exit (haltText : String) (trace registers : List String)
    (err : Option TraceError) (hlen : trace.length ≤ registers.length) :
    ∃ out, mainAfterTrace haltText trace registers err = some out ∧
      (out.errOut ≠ none ↔ (err ≠ none ∧ err ≠ some TraceError.ErrHalt)) ∧
      (∀ text, err = some (TraceError.other text) → out.errOut = some text) ∧
      (err = some TraceError.ErrHalt → out.errOut = none ∧ out.ret = none) ∧
      out.ret = none ∧
      out.traceOut = List.zipWith
        (fun line reg =>
          line ++ String.mk (List.replicate (25 - line.length) (Char.ofNat 32)) ++ reg ++ "\n")
        trace registers := by
  have hlines := printTrace_eq_zipWith registers trace 0 (by omega)
  have hfmt : formatLine = fun line reg =>
      line ++ String.mk (List.replicate (25 - line.length) (Char.ofNat 32)) ++ reg ++ "\n" := rfl
  rw [List.drop_zero, hfmt] at hlines
  cases err with
  | none =>
    exact ⟨⟨_, none, none⟩, by simp [mainAfterTrace, hlines], by simp, by simp, by simp,
      rfl, rfl⟩
  | some e =>
    cases e with
    | ErrHalt =>
      exact ⟨⟨_, none, none⟩, by simp [mainAfterTrace, hlines], by simp, by simp, by simp,
        rfl, rfl⟩
    | other text =>
      exact ⟨⟨_, some text, none⟩, by simp [mainAfterTrace, hlines, errorText], by simp,
        by simp, by simp, rfl, rfl⟩

/-- Witness of C19 amended at a trace of one line that ends in a halt; beside it
the same trace ending in another error, whose text is written. -/
theorem halt_is_clean_exit_witness :
    ["halt"].length ≤ ["pc: $1000"].length ∧
    mainAfterTrace "halt" ["halt"] ["pc: $1000"] (some TraceError.ErrHalt) =
      some ⟨["halt                     pc: $1000\n"], none, none⟩ ∧
    mainAfterTrace "halt" ["halt"] ["pc: $1000"] (some (TraceError.other "boom")) =
      some ⟨["halt                     pc: $1000\n"], some "boom", none⟩ ∧
    ∃ out, mainAfterTrace "halt" ["halt"] ["pc: $1000"] (some TraceError.ErrHalt) = some out ∧
      (out.errOut ≠ none ↔
        (some TraceError.ErrHalt ≠ none ∧ some TraceError.ErrHalt ≠ some TraceError.ErrHalt)) ∧
      (∀ text, some TraceError.ErrHalt = some (TraceError.other text) →
        out.errOut = some text) ∧
      (some TraceError.ErrHalt = some TraceError.ErrHalt → out.errOut = none ∧ out.ret = none) ∧
      out.ret = none ∧
      out.traceOut = List.zipWith
        (fun line reg =>
          line ++ String.mk (List.replicate (25 - line.length) (Char.ofNat 32)) ++ reg ++ "\n")
        ["halt"] ["pc: $1000"] :=
  ⟨by decide, by decide, by decide,
    halt_is_clean_exit "halt" ["halt"] ["pc: $1000"] (some TraceError.ErrHalt) (by decide)⟩

/-- C20: a base-table element at an index in 0x40..0x7f other than 0x76 is the
8-bit load of the Z80 encoding: mnemonic forms `ld` and `mov`, `noBytes` 1, the
destination the operand of bits 5..3 and the source the operand of bits 2..0 of
the index, where field 6 is `registerIndirect` with Z80 hint `hl` and any other
field `k` is `register` with Z80 hint `r8[k]`; the element at 0x76 is `halt`. -/
theorem load_block_follows_encoding (i : Nat) (e : opcode)
    (h : index opcodes i = some e) (hlo : 0x40 ≤ i) (hhi : i ≤ 0x7f) :
    (i ≠ 0x76 →
      e.mnemonic = ["ld", "mov"] ∧ e.noBytes = 1 ∧
      operandIs e.dst e.dstR ((i >>> 3) &&& 7) ∧ operandIs e.src e.srcR (i &&& 7)) ∧
    (i = 0x76 → e = op_halt ∧ textAt e.mnemonic dialectZ80 = some "halt") :=
  forall_index_opcodes
    (fun i e => 0x40 ≤ i → i ≤ 0x7f →
      (i ≠ 0x76 →
        e.mnemonic = ["ld", "mov"] ∧ e.noBytes = 1 ∧
        operandIs e.dst e.dstR ((i >>> 3) &&& 7) ∧ operandIs e.src e.srcR (i &&& 7)) ∧
      (i = 0x76 → e = op_halt ∧ textAt e.mnemonic dialectZ80 = some "halt"))
    (by decide) (by decide) (by decide) (by decide) (by decide) (by decide) (by decide)
    (by decide) (by decide) (by decide) (by decide) (by decide) (by decide) (by decide)
    (by decide) (by decide) i e h hlo hhi

/-- Witness of C20 at the index 0x46, the entry of `ld b,(hl)`. -/
theorem load_block_follows_encoding_witness :
    index opcodes 0x46 = some op_ld_b_hl ∧ 0x40 ≤ 0x46 ∧ 0x46 ≤ 0x7f ∧
    ((0x46 ≠ 0x76 →
        op_ld_b_hl.mnemonic = ["ld", "mov"] ∧ op_ld_b_hl.noBytes = 1 ∧
        operandIs op_ld_b_hl.dst op_ld_b_hl.dstR ((0x46 >>> 3) &&& 7) ∧
        operandIs op_ld_b_hl.src op_ld_b_hl.srcR (0x46 &&& 7)) ∧
      (0x46 = 0x76 → op_ld_b_hl = op_halt ∧ textAt op_ld_b_hl.mnemonic dialectZ80 = some "halt")) :=
  ⟨by decide, by decide, by decide,
    load_block_follows_encoding 0x46 op_ld_b_hl (by decide) (by decide) (by decide)⟩

/-- C22: a base-table element at an index in 0x90..0xa7 (the rows of `sub`, `sbc`
and `and`) has as `dst` the register `a` and as `src` the operand that the low
three bits of the index select; an element at an index in 0xb0..0xbf (the rows of
`or` and `cp`) has as `dst`, its sole operand, the operand that the low three
bits select; the operand of field 6 is `registerIndirect` with Z80 hint `hl` and
of any other field `k` is `register` with Z80 hint `r8[k]`. -/
theorem sub_to_cp_rows_follow_encoding (i : Nat) (e : opcode)
    (h : index opcodes i = some e) :
    (0x90 ≤ i ∧ i ≤ 0xa7 → accumulatorRowEntry i e) ∧
    (0xb0 ≤ i ∧ i ≤ 0xbf → soleOperandRowEntry i e) :=
  forall_index_opcodes
    (fun i e =>
      (0x90 ≤ i ∧ i ≤ 0xa7 → accumulatorRowEntry i e) ∧
      (0xb0 ≤ i ∧ i ≤ 0xbf → soleOperandRowEntry i e))
    (by decide) (by decide) (by decide) (by decide) (by decide) (by decide) (by decide)
    (by decide) (by decide) (by decide) (by decide) (by decide) (by decide) (by decide)
    (by decide) (by decide) i e h

/-- Witness of C22 at the index 0x96, the entry of `sub a,(hl)`. -/
theorem sub_to_cp_rows_follow_encoding_witness :
    index opcodes 0x96 = some op_sub_a_hl ∧ (0x90 ≤ 0x96 ∧ 0x96 ≤ 0xa7) ∧
    accumulatorRowEntry 0x96 op_sub_a_hl :=
  ⟨by decide, by decide,
    (sub_to_cp_rows_follow_encoding 0x96 op_sub_a_hl (by decide)).1 (by decide)⟩

/-- C21 (the code at the failing inputs): in the rows of `add`, `adc` and `xor`
the entries at 0x86, 0x87, 0x8e, 0x8f and 0xad, and no others, do not have as `src`
the operand that the low three bits of the opcode select: `add a,(hl)` is written
with `src` the register `a`, `add a,a` and `adc a,a` with the register `l`,
`adc a,(hl)` with mode `register` and hint "(hl)", and `xor a,l` with the register
`h`. -/
theorem add_adc_xor_rows_slips :
    offenders addAdcXorOpcodes accumulatorRowEntry = [0x86, 0x87, 0x8e, 0x8f, 0xad] ∧
    index opcodes 0x86 = some op_add_a_hl ∧
    op_add_a_hl.src = mode.register ∧ textAt op_add_a_hl.srcR dialectZ80 = some "a" ∧
    index opcodes 0x87 = some op_add_a_a ∧
    op_add_a_a.src = mode.register ∧ textAt op_add_a_a.srcR dialectZ80 = some "l" ∧
    index opcodes 0x8e = some op_adc_a_hl ∧
    op_adc_a_hl.src = mode.register ∧ textAt op_adc_a_hl.srcR dialectZ80 = some "(hl)" ∧
    index opcodes 0x8f = some op_adc_a_a ∧
    op_adc_a_a.src = mode.register ∧ textAt op_adc_a_a.srcR dialectZ80 = some "l" ∧
    index opcodes 0xad = some op_xor_a_l ∧
    op_xor_a_l.src = mode.register ∧ textAt op_xor_a_l.srcR dialectZ80 = some "h" ∧
    r8[0x86 &&& 7]? = some "(hl)" ∧ r8[0x87 &&& 7]? = some "a" ∧ r8[0xad &&& 7]? = some "l" := by
  decide

/-- C23 (the code at the failing inputs): among the opcodes 0x80..0xbf the eight
entries at 0x88..0x8f, and no others, do not have as Z80 mnemonic the ALU
operation that bits 5..3 of the opcode select: they have `add` where the
operation is `adc`, which is their 8080 mnemonic. -/
theorem adc_row_named_add :
    offenders aluOpcodes (fun op e => textAt e.mnemonic dialectZ80 = aluOf op) =
      [0x88, 0x89, 0x8a, 0x8b, 0x8c, 0x8d, 0x8e, 0x8f] ∧
    index opcodes 0x88 = some op_adc_a_b ∧
    textAt op_adc_a_b.mnemonic dialectZ80 = some "add" ∧
    textAt op_adc_a_b.mnemonic dialect8080 = some "adc" ∧
    aluOf 0x88 = some "adc" := by
  decide

/-- C24 (the code at the failing input): among the opcodes 0x40..0xbf other than
0x76 the entry at 0x86, `add a,(hl)`, and no other, does not have 7 cycles with a
`(hl)` operand and 4 without: it has 4 cycles, where `adc a,(hl)` at 0x8e and
`sub a,(hl)` at 0x96 have 7. -/
theorem add_a_hl_costs_four :
    offenders loadAndAluOpcodes (fun op e => e.noCycles = loadAndAluCycles op) = [0x86] ∧
    index opcodes 0x86 = some op_add_a_hl ∧ op_add_a_hl.noCycles = 4 ∧
    hasMemoryOperand 0x86 ∧ loadAndAluCycles 0x86 = 7 ∧
    op_adc_a_hl.noCycles = 7 ∧ op_sub_a_hl.noCycles = 7 := by
  decide

/-- C25: for every k in 0..7 the entries at 0x04 + 8k, 0x05 + 8k and 0x06 + 8k have
the Z80 mnemonics `inc`, `dec` and `ld` and the same destination, the operand of
field k (`registerIndirect` with Z80 hint `hl` for k = 6, `register` with Z80 hint
`r8[k]` otherwise); the `ld` entry has `src` `immediate` and `noBytes` 2, the `inc`
and `dec` entries have no `src` and `noBytes` 1. -/
theorem inc_dec_ld_share_destination (k : Nat) (hk : k < 8) :
    entryAt (0x04 + 8 * k) (fun e =>
      textAt e.mnemonic dialectZ80 = some "inc" ∧ operandIs e.dst e.dstR k ∧
      e.src = mode.invalid ∧ e.srcR = [] ∧ e.noBytes = 1) ∧
    entryAt (0x05 + 8 * k) (fun e =>
      textAt e.mnemonic dialectZ80 = some "dec" ∧ operandIs e.dst e.dstR k ∧
      e.src = mode.invalid ∧ e.srcR = [] ∧ e.noBytes = 1) ∧
    entryAt (0x06 + 8 * k) (fun e =>
      textAt e.mnemonic dialectZ80 = some "ld" ∧ operandIs e.dst e.dstR k ∧
      e.src = mode.immediate ∧ e.noBytes = 2) := by
  refine ⟨?_, ?_, ?_⟩ <;> (revert k; decide)

/-- Witness of C25 at k = 6, the entries of `inc (hl)`, `dec (hl)` and `ld (hl),n`. -/
theorem inc_dec_ld_share_destination_witness :
    6 < 8 ∧
    (entryAt (0x04 + 8 * 6) (fun e =>
      textAt e.mnemonic dialectZ80 = some "inc" ∧ operandIs e.dst e.dstR 6 ∧
      e.src = mode.invalid ∧ e.srcR = [] ∧ e.noBytes = 1) ∧
    entryAt (0x05 + 8 * 6) (fun e =>
      textAt e.mnemonic dialectZ80 = some "dec" ∧ operandIs e.dst e.dstR 6 ∧
      e.src = mode.invalid ∧ e.srcR = [] ∧ e.noBytes = 1) ∧
    entryAt (0x06 + 8 * 6) (fun e =>
      textAt e.mnemonic dialectZ80 = some "ld" ∧ operandIs e.dst e.dstR 6 ∧
      e.src = mode.immediate ∧ e.noBytes = 2)) :=
  ⟨by decide, inc_dec_ld_share_destination 6 (by decide)⟩

/-- C26 (the code at the failing inputs): of the entries at 0x04 + 8k, 0x05 + 8k
and 0x06 + 8k those at 0x35 and 0x36, and no others, do not have the 8080
mnemonic of their class: `dec (hl)` has `dec` where `dec b` at 0x05 has `dcr`, and
`ld (hl),n` has `mov` where `ld b,n` at 0x06 has `mvi`. -/
theorem legacy_names_of_dec_hl_and_ld_hl_n :
    offenders incDecLdOpcodes (fun op e => textAt e.mnemonic dialect8080 = legacyClassName op) =
      [0x35, 0x36] ∧
    index opcodes 0x35 = some op_dec_hl ∧ textAt op_dec_hl.mnemonic dialect8080 = some "dec" ∧
    legacyClassName 0x35 = some "dcr" ∧
    index opcodes 0x05 = some op_dec_b ∧ textAt op_dec_b.mnemonic dialect8080 = some "dcr" ∧
    index opcodes 0x36 = some op_ld_hl_n ∧ textAt op_ld_hl_n.mnemonic dialect8080 = some "mov" ∧
    legacyClassName 0x36 = some "mvi" ∧
    index opcodes 0x06 = some op_ld_b_n ∧ textAt op_ld_b_n.mnemonic dialect8080 = some "mvi" := by
  decide

/-- C27 (the code at the failing inputs): of the eight restart entries those at
0xf7 and 0xff, and no others, do not have the restart number as 8080 `dst` hint:
both have "4", where the restart numbers are 6 and 7 and the Z80 hints are "$30"
and "$38". -/
theorem legacy_hint_of_rst_6_and_7 :
    offenders restartOpcodes
      (fun op e => textAt e.dstR dialect8080 = some (decimalDigit (restartNumber op))) =
      [0xf7, 0xff] ∧
    index opcodes 0xf7 = some op_rst_30 ∧ textAt op_rst_30.dstR dialect8080 = some "4" ∧
    textAt op_rst_30.dstR dialectZ80 = some "$30" ∧ decimalDigit (restartNumber 0xf7) = "6" ∧
    index opcodes 0xff = some op_rst_38 ∧ textAt op_rst_38.dstR dialect8080 = some "4" ∧
    textAt op_rst_38.dstR dialectZ80 = some "$38" ∧ decimalDigit (restartNumber 0xff) = "7" ∧
    8 * restartNumber 0xf7 = 0x30 ∧ 8 * restartNumber 0xff = 0x38 := by
  decide

/-- C28: for every k in 0..3 the entries at 0x01 + 16k, 0x03 + 16k and 0x0b + 16k
are `ld` (with `src` `immediateExtended` and `noBytes` 3), `inc` and `dec` with `dst`
mode `register` and Z80 `dst` hint the k-th of bc, de, hl, sp; the entry at
0x09 + 16k is `add` with Z80 `dst` hint `hl` and Z80 `src` hint that pair; and the
entries at 0xc1 + 16k and 0xc5 + 16k are `pop` and `push` with `dst` mode `register`
and Z80 `dst` hint the k-th of bc, de, hl, af. -/
theorem pair_rows_follow_encoding (k : Nat) (hk : k < 4) :
    entryAt (0x01 + 16 * k) (fun e =>
      textAt e.mnemonic dialectZ80 = some "ld" ∧ e.dst = mode.register ∧
      textAt e.dstR dialectZ80 = pairNames[k]? ∧
      e.src = mode.immediateExtended ∧ e.noBytes = 3) ∧
    entryAt (0x03 + 16 * k) (fun e =>
      textAt e.mnemonic dialectZ80 = some "inc" ∧ e.dst = mode.register ∧
      textAt e.dstR dialectZ80 = pairNames[k]?) ∧
    entryAt (0x0b + 16 * k) (fun e =>
      textAt e.mnemonic dialectZ80 = some "dec" ∧ e.dst = mode.register ∧
      textAt e.dstR dialectZ80 = pairNames[k]?) ∧
    entryAt (0x09 + 16 * k) (fun e =>
      textAt e.mnemonic dialectZ80 = some "add" ∧ textAt e.dstR dialectZ80 = some "hl" ∧
      textAt e.srcR dialectZ80 = pairNames[k]?) ∧
    entryAt (0xc1 + 16 * k) (fun e =>
      textAt e.mnemonic dialectZ80 = some "pop" ∧ e.dst = mode.register ∧
      textAt e.dstR dialectZ80 = stackPairNames[k]?) ∧
    entryAt (0xc5 + 16 * k) (fun e =>
      textAt e.mnemonic dialectZ80 = some "push" ∧ e.dst = mode.register ∧
      textAt e.dstR dialectZ80 = stackPairNames[k]?) ∧
    pairNames[k]? ≠ none ∧ stackPairNames[k]? ≠ none := by
  refine ⟨?_, ?_, ?_, ?_, ?_, ?_, ?_, ?_⟩ <;> (revert k; decide)

/-- Witness of C28 at k = 3, the pairs sp and af. -/
theorem pair_rows_follow_encoding_witness :
    3 < 4 ∧ pairNames[3]? = some "sp" ∧ stackPairNames[3]? = some "af" ∧
    entryAt (0x01 + 16 * 3) (fun e =>
      textAt e.mnemonic dialectZ80 = some "ld" ∧ e.dst = mode.register ∧
      textAt e.dstR dialectZ80 = pairNames[3]? ∧
      e.src = mode.immediateExtended ∧ e.noBytes = 3) ∧
    entryAt (0xc1 + 16 * 3) (fun e =>
      textAt e.mnemonic dialectZ80 = some "pop" ∧ e.dst = mode.register ∧
      textAt e.dstR dialectZ80 = stackPairNames[3]?) :=
  ⟨by decide, by decide, by decide,
    (pair_rows_follow_encoding 3 (by decide)).1,
    (pair_rows_follow_encoding 3 (by decide)).2.2.2.2.1⟩

/-- C29 (the code at the failing inputs): of the four entries `add hl,bc`,
`add hl,de`, `add hl,hl`, `add hl,sp` those at 0x19 and 0x39, and no others, do not
have `src` mode `register`: they have `registerIndirect`, where 0x09 and 0x29
have `register`; all four have `noBytes` 1 and `noCycles` 11. -/
theorem add_hl_de_and_sp_indirect :
    offenders [0x09, 0x19, 0x29, 0x39] (fun _ e => e.src = mode.register) = [0x19, 0x39] ∧
    offenders [0x09, 0x19, 0x29, 0x39] (fun _ e => e.noBytes = 1 ∧ e.noCycles = 11) = [] ∧
    index opcodes 0x09 = some op_add_hl_bc ∧ op_add_hl_bc.src = mode.register ∧
    index opcodes 0x19 = some op_add_hl_de ∧ op_add_hl_de.src = mode.registerIndirect ∧
    index opcodes 0x29 = some op_add_hl_hl ∧ op_add_hl_hl.src = mode.register ∧
    index opcodes 0x39 = some op_add_hl_sp ∧ op_add_hl_sp.src = mode.registerIndirect := by
  decide

/-- C30 (the code at the failing inputs): of the entries at 0x03 + 16k and
0x0b + 16k those at 0x0b and 0x33, and no others, do not have as 8080 `dst` hint the
8080 name of the pair of their Z80 hint: `dec bc` has "d" where `inc bc` at 0x03
has "b", and `inc sp` has "h" where `dec sp` at 0x3b has "sp". -/
theorem legacy_hint_of_dec_bc_and_inc_sp :
    offenders incDecPairOpcodes (fun _ e => legacyPairHintAgrees e) = [0x0b, 0x33] ∧
    index opcodes 0x0b = some op_dec_bc ∧ textAt op_dec_bc.dstR dialectZ80 = some "bc" ∧
    textAt op_dec_bc.dstR dialect8080 = some "d" ∧ legacyPairName "bc" = some "b" ∧
    index opcodes 0x03 = some op_inc_bc ∧ textAt op_inc_bc.dstR dialect8080 = some "b" ∧
    index opcodes 0x33 = some op_inc_sp ∧ textAt op_inc_sp.dstR dialectZ80 = some "sp" ∧
    textAt op_inc_sp.dstR dialect8080 = some "h" ∧ legacyPairName "sp" = some "sp" ∧
    index opcodes 0x3b = some op_dec_sp ∧ textAt op_dec_sp.dstR dialect8080 = some "sp" := by
  decide

/-- C31 (the code at the failing input): of the four entries whose operand is an
absolute 16-bit memory address the entry of `ld (nn),a` at 0x32, and no other,
does not have the mode `extended` for that operand: its `dst` is
`immediateExtended`, where the other store, `ld (nn),hl` at 0x22, has `dst`
`extended` and the loads at 0x2a and 0x3a have `src` `extended`. -/
theorem ld_nn_a_is_immediateExtended :
    offenders absoluteAddressOpcodes addressOperandExtended = [0x32] ∧
    index opcodes 0x32 = some op_ld_nn_a ∧ op_ld_nn_a.dst = mode.immediateExtended ∧
    index opcodes 0x22 = some op_ld_nn_hl ∧ op_ld_nn_hl.dst = mode.extended ∧
    index opcodes 0x2a = some op_ld_hl_nn ∧ op_ld_hl_nn.src = mode.extended ∧
    index opcodes 0x3a = some op_ld_a_nn ∧ op_ld_a_nn.src = mode.extended := by
  decide

/-- The elements of `opcodesDD` and `opcodesFD` index by index. -/
theorem dd_fd_pointwise :
    ∀ i, i < 230 →
      ((index opcodesDD i).all fun d => (index opcodesFD i).all fun f =>
        decide ((isPopulated d ↔ i ∈ indexTableKeys) ∧ (isPopulated f ↔ i ∈ indexTableKeys) ∧
          agreeButDstHint d f ∧
          (i ∈ indexTableKeys → d.dstR = ["ix"] ∧ f.dstR = ["iy"]) ∧
          (i ∉ indexTableKeys → d.dstR = f.dstR))) = true := by
  decide

/-- C32: `opcodesDD` and `opcodesFD` have the same length; at every index the
element of either is populated exactly when the index is 0x23, 0x2b, 0xe1 or
0xe5; and at every index the two elements agree on mnemonic, `src` and `dst`
mode, `noBytes` and `noCycles` (and on `srcR` and `multiByte`), the `dst` hint
being `ix` in `opcodesDD` and `iy` in `opcodesFD` at the populated indexes and
equal elsewhere. -/
theorem dd_and_fd_differ_in_dst_hint_only (i : Nat) (d f : opcode)
    (hd : index opcodesDD i = some d) (hf : index opcodesFD i = some f) :
    opcodesDD.length = opcodesFD.length ∧
    (isPopulated d ↔ i ∈ indexTableKeys) ∧ (isPopulated f ↔ i ∈ indexTableKeys) ∧
    agreeButDstHint d f ∧
    (i ∈ indexTableKeys → d.dstR = ["ix"] ∧ f.dstR = ["iy"]) ∧
    (i ∉ indexTableKeys → d.dstR = f.dstR) := by
  have hlenD : opcodesDD.length = 230 := length_keyed _
  have hlenF : opcodesFD.length = 230 := length_keyed _
  have hi : i < 230 := by
    by_contra hge
    have hnone : index opcodesDD i = none := index_of_le (by omega)
    rw [hnone] at hd
    cases hd
  have key := dd_fd_pointwise i hi
  rw [hd, hf] at key
  exact ⟨by rw [hlenD, hlenF], of_decide_eq_true key⟩

/-- Witness of C32 at the index 0x23, the entries of `inc ix` and `inc iy`. -/
theorem dd_and_fd_differ_in_dst_hint_only_witness :
    index opcodesDD 0x23 = some op_inc_ix ∧ index opcodesFD 0x23 = some op_inc_iy ∧
    (opcodesDD.length = opcodesFD.length ∧
      (isPopulated op_inc_ix ↔ 0x23 ∈ indexTableKeys) ∧
      (isPopulated op_inc_iy ↔ 0x23 ∈ indexTableKeys) ∧
      agreeButDstHint op_inc_ix op_inc_iy ∧
      (0x23 ∈ indexTableKeys → op_inc_ix.dstR = ["ix"] ∧ op_inc_iy.dstR = ["iy"]) ∧
      (0x23 ∉ indexTableKeys → op_inc_ix.dstR = op_inc_iy.dstR)) :=
  ⟨by decide, by decide,
    dd_and_fd_differ_in_dst_hint_only 0x23 op_inc_ix op_inc_iy (by decide) (by decide)⟩

/-- The populated elements of `opcodesDD` and `opcodesFD` against the base table,
index by index. -/
theorem index_tables_against_base :
    ∀ i, i < 230 →
      ((index opcodesDD i).all fun p =>
        decide (isPopulated p → entryAt i (fun b => isHlFormOf p b))) = true ∧
      ((index opcodesFD i).all fun p =>
        decide (isPopulated p → entryAt i (fun b => isHlFormOf p b))) = true := by
  decide

/-- C33: for a populated element `p` at an index of `opcodesDD` or of `opcodesFD`
the base table holds at the same index the HL instruction: an element with the
same Z80 mnemonic, the same `dst` mode and the Z80 `dst` hint `hl`, such that
`p.noBytes` is its `noBytes` plus 1 and `p.noCycles` is its `noCycles` plus 4. -/
theorem index_entry_is_hl_entry_plus_prefix (t : List opcode) (i : Nat) (p : opcode)
    (ht : t = opcodesDD ∨ t = opcodesFD) (hp : index t i = some p) (hpop : isPopulated p) :
    entryAt i (fun b => isHlFormOf p b) := by
  have hlenD : opcodesDD.length = 230 := length_keyed _
  have hlenF : opcodesFD.length = 230 := length_keyed _
  have hi : i < 230 := by
    by_contra hge
    have hnone : index t i = none := by
      rcases ht with rfl | rfl
      · exact index_of_le (by omega)
      · exact index_of_le (by omega)
    rw [hnone] at hp
    cases hp
  have key := index_tables_against_base i hi
  rcases ht with rfl | rfl
  · have k1 := key.1
    rw [hp] at k1
    exact of_decide_eq_true k1 hpop
  · have k2 := key.2
    rw [hp] at k2
    exact of_decide_eq_true k2 hpop

/-- Witness of C33 at the index 0xe5 of `opcodesDD`, the entries of `push ix` and
`push hl`. -/
theorem index_entry_is_hl_entry_plus_prefix_witness :
    index opcodesDD 0xe5 = some op_push_ix ∧ isPopulated op_push_ix ∧
    index opcodes 0xe5 = some op_push_hl ∧ isHlFormOf op_push_ix op_push_hl ∧
    entryAt 0xe5 (fun b => isHlFormOf op_push_ix b) :=
  ⟨by decide, by decide, by decide, by decide,
    index_entry_is_hl_entry_plus_prefix opcodesDD 0xe5 op_push_ix (Or.inl rfl)
      (by decide) (by decide)⟩

/-- C34 (the code at the failing input): with both flags empty the boot image of
`_main` starts with the bytes 31 00 ee, the instruction `ld sp,nn` with the
operand bytes 00 ee; read low byte first the operand is 0xee00 and not 0xe000,
which the comment beside the bytes names and which the bytes 00 e0 would give. -/
theorem boot_loads_sp_with_0xee00 (readFile : String → Option (List Nat)) :
    ∃ boot ram,
      mainImages "" "" readFile = some (boot, ram) ∧
      boot.take 3 = [0x31, 0x00, 0xee] ∧
      decodeAt boot 0 = some ⟨op_ld_sp_nn, [0x00, 0xee]⟩ ∧
      textAt op_ld_sp_nn.mnemonic dialectZ80 = some "ld" ∧
      textAt op_ld_sp_nn.dstR dialectZ80 = some "sp" ∧
      op_ld_sp_nn.src = mode.immediateExtended ∧
      le16 [0x00, 0xee] = some 0xee00 ∧ le16 [0x00, 0xee] ≠ some 0xe000 ∧
      le16 [0x00, 0xe0] = some 0xe000 := by
  refine ⟨[0x31, 0x00, 0xee, 0xc3, 0x00, 0x10], [0x76], rfl, ?_⟩
  decide

end Toyz80
